import Mathlib

/-!
Verification development for the drone-route-builder-system mission-planning
engine. Python floating-point arithmetic is embedded over the real numbers;
library geometry predicates (shapely polygon containment and segment
intersection) are embedded as abstract boolean-valued fields of the zone
record, since the polygon library is an external collaborator of the core.
-/

noncomputable section

open scoped Classical

/-- Degrees to radians, as math.radians. -/
def radians (x : ℝ) : ℝ := x * Real.pi / 180

/-- Two-argument arctangent with the math.atan2 convention, realised as the
argument of the complex number with real part x and imaginary part y. -/
def atan2 (y x : ℝ) : ℝ := Complex.arg ⟨x, y⟩

theorem atan2_zero_one : atan2 0 1 = 0 := by
  have h : (⟨1, 0⟩ : ℂ) = 1 := by
    apply Complex.ext <;> simp
  rw [atan2, h, Complex.arg_one]

theorem atan2_zero_zero : atan2 0 0 = 0 := by
  have h : (⟨0, 0⟩ : ℂ) = 0 := by
    apply Complex.ext <;> simp
  rw [atan2, h, Complex.arg_zero]

/-- Haversine horizontal distance in meters; this exact formula is duplicated
verbatim in several classes of the source (cost model, route, weather manager,
VRP solver, optimizers). -/
def haversine_distance (lat1 lon1 lat2 lon2 : ℝ) : ℝ :=
  let R : ℝ := 6371000
  let lat1_rad := radians lat1
  let lat2_rad := radians lat2
  let delta_lat := radians (lat2 - lat1)
  let delta_lon := radians (lon2 - lon1)
  let a := Real.sin (delta_lat / 2) ^ 2 +
    Real.cos lat1_rad * Real.cos lat2_rad * Real.sin (delta_lon / 2) ^ 2
  let c := 2 * atan2 (Real.sqrt a) (Real.sqrt (1 - a))
  R * c

theorem haversine_self (lat lon : ℝ) : haversine_distance lat lon lat lon = 0 := by
  simp [haversine_distance, radians, atan2_zero_one]

/-- Weather sample record, from WeatherConditions in weather_provider.py.
The timestamp field is omitted: none of the embedded routines read it. -/
structure WeatherConditions where
  latitude : ℝ
  longitude : ℝ
  altitude : ℝ
  wind_speed_10m : ℝ
  wind_direction_10m : ℝ
  wind_speed_80m : Option ℝ := none
  wind_direction_80m : Option ℝ := none
  temperature_2m : ℝ := 15
  precipitation : ℝ := 0
  cloud_cover : ℝ := 0
  visibility : Option ℝ := none

namespace WeatherConditions

/-- Power-law wind profile, from WeatherConditions.get_wind_speed_at_altitude.
The Python truthiness test on wind_speed_80m is rendered as: present and
nonzero. -/
def get_wind_speed_at_altitude (w : WeatherConditions) (altitude_m : ℝ) : ℝ :=
  let alpha : ℝ := 0.15
  if altitude_m ≤ 10 then w.wind_speed_10m
  else
    let refp : ℝ × ℝ :=
      match w.wind_speed_80m with
      | some v80 => if altitude_m ≥ 80 ∧ v80 ≠ 0 then (v80, 80) else (w.wind_speed_10m, 10)
      | none => (w.wind_speed_10m, 10)
    if refp.2 ≤ 0 then refp.1
    else refp.1 * Real.rpow (altitude_m / refp.2) alpha

/-- Signed wind component along the travel heading, from
WeatherConditions.get_effective_wind_speed. Positive is headwind. -/
def get_effective_wind_speed (w : WeatherConditions) (heading altitude_m : ℝ) : ℝ :=
  let wind_speed := w.get_wind_speed_at_altitude altitude_m
  let wind_dir := w.wind_direction_10m
  let angle_diff0 := |heading - wind_dir|
  let angle_diff := if angle_diff0 > 180 then 360 - angle_diff0 else angle_diff0
  let angle_rad := radians angle_diff
  wind_speed * Real.cos angle_rad

/-- Flight-safety predicate, from WeatherConditions.is_safe_for_flight with
its default thresholds (15 m/s wind, 5 mm/h precipitation, 1 km visibility). -/
def is_safe_for_flight (w : WeatherConditions) : Bool :=
  if w.wind_speed_10m > 15 then false
  else if w.precipitation > 5 then false
  else
    match w.visibility with
    | some v => if v < 1 then false else true
    | none => true

end WeatherConditions

theorem wind_speed_nonneg (w : WeatherConditions)
    (h10 : 0 ≤ w.wind_speed_10m)
    (h80 : ∀ v, w.wind_speed_80m = some v → 0 ≤ v) (alt : ℝ) :
    0 ≤ w.get_wind_speed_at_altitude alt := by
  unfold WeatherConditions.get_wind_speed_at_altitude
  by_cases hle : alt ≤ 10
  · simpa [hle]
  · have halt : (0:ℝ) ≤ alt := by
      have := lt_of_not_le hle
      linarith
    have hdiv10 : (0:ℝ) ≤ alt / 10 := by positivity
    have hdiv80 : (0:ℝ) ≤ alt / 80 := by positivity
    rcases hv : w.wind_speed_80m with _ | v80
    · simp only [hle, if_false, hv]
      rw [if_neg (by norm_num : ¬ ((w.wind_speed_10m, (10:ℝ)).2 ≤ 0))]
      exact mul_nonneg h10 (Real.rpow_nonneg hdiv10 _)
    · by_cases hc : alt ≥ 80 ∧ v80 ≠ 0
      · simp only [hle, if_false, hv, if_pos hc]
        rw [if_neg (by norm_num : ¬ ((v80, (80:ℝ)).2 ≤ 0))]
        exact mul_nonneg (h80 v80 hv) (Real.rpow_nonneg hdiv80 _)
      · simp only [hle, if_false, hv, if_neg hc]
        rw [if_neg (by norm_num : ¬ ((w.wind_speed_10m, (10:ℝ)).2 ≤ 0))]
        exact mul_nonneg h10 (Real.rpow_nonneg hdiv10 _)

theorem get_effective_wind_speed_eq (w : WeatherConditions) (heading alt : ℝ) :
    w.get_effective_wind_speed heading alt =
      w.get_wind_speed_at_altitude alt *
        Real.cos (radians (if |heading - w.wind_direction_10m| > 180
          then 360 - |heading - w.wind_direction_10m|
          else |heading - w.wind_direction_10m|)) := rfl

theorem cos_radians_int_mul (m : ℤ) : Real.cos (radians (360 * m)) = 1 := by
  have h : radians (360 * (m : ℝ)) = (m : ℝ) * (2 * Real.pi) := by
    unfold radians; ring
  rw [h, Real.cos_int_mul_two_pi]

theorem cos_radians_int_mul_add_half (m : ℤ) :
    Real.cos (radians (180 + 360 * m)) = -1 := by
  have h : radians (180 + 360 * (m : ℝ)) = (m : ℝ) * (2 * Real.pi) + Real.pi := by
    unfold radians; ring
  rw [h, Real.cos_int_mul_two_pi_add_pi]

theorem cos_angle_diff_of_full_turn (a : ℝ) (k : ℤ) (h : a = 360 * k) :
    Real.cos (radians (if |a| > 180 then 360 - |a| else |a|)) = 1 := by
  have habs : |a| = 360 * |(k : ℝ)| := by
    rw [h, abs_mul]
    norm_num
  rcases le_or_lt (|a|) 180 with hle | hlt
  · rw [if_neg (not_lt.mpr hle)]
    have hk : k = 0 := by
      by_contra hk0
      have h1 : (1 : ℝ) ≤ |(k : ℝ)| := by
        have : 1 ≤ |k| := Int.one_le_abs hk0
        calc (1:ℝ) = ((1:ℤ):ℝ) := by norm_num
        _ ≤ ((|k|:ℤ):ℝ) := by exact_mod_cast this
        _ = |(k:ℝ)| := by push_cast; ring
      rw [habs] at hle
      linarith
    subst hk
    simp only [Int.cast_zero, mul_zero] at h
    rw [h, abs_zero]
    have : radians 0 = 0 := by unfold radians; ring
    rw [this, Real.cos_zero]
  · rw [if_pos hlt]
    have hm : 360 - |a| = 360 * ((1 - |k| : ℤ) : ℝ) := by
      rw [habs]
      push_cast
      ring
    rw [hm, cos_radians_int_mul]

theorem cos_angle_diff_of_half_turn (a : ℝ) (k : ℤ) (h : a = 180 + 360 * k) :
    Real.cos (radians (if |a| > 180 then 360 - |a| else |a|)) = -1 := by
  rcases le_or_lt 0 a with hpos | hneg
  · have hk0 : 0 ≤ k := by
      by_contra hk
      have hk1 : k ≤ -1 := by omega
      have : (k : ℝ) ≤ -1 := by exact_mod_cast hk1
      rw [h] at hpos
      linarith
    have habs : |a| = 180 + 360 * (k : ℝ) := by
      rw [abs_of_nonneg hpos, h]
    rcases eq_or_lt_of_le hk0 with hk | hk
    · have hkz : k = 0 := hk.symm
      subst hkz
      simp only [Int.cast_zero, mul_zero, add_zero] at habs
      rw [habs]
      rw [if_neg (by norm_num)]
      have h180 : (180 : ℝ) = 180 + 360 * ((0 : ℤ) : ℝ) := by norm_num
      rw [h180, cos_radians_int_mul_add_half]
    · have hk1 : 1 ≤ k := hk
      have hk1r : (1 : ℝ) ≤ (k : ℝ) := by exact_mod_cast hk1
      have hgt : |a| > 180 := by rw [habs]; linarith
      rw [if_pos hgt, habs]
      have hm : 360 - (180 + 360 * (k : ℝ)) = 180 + 360 * ((-k : ℤ) : ℝ) := by
        push_cast; ring
      rw [hm, cos_radians_int_mul_add_half]
  · have hk0 : k ≤ -1 := by
      by_contra hk
      have hk1 : 0 ≤ k := by omega
      have : (0 : ℝ) ≤ (k : ℝ) := by exact_mod_cast hk1
      rw [h] at hneg
      linarith
    have habs : |a| = -180 - 360 * (k : ℝ) := by
      rw [abs_of_neg hneg, h]; ring
    rcases eq_or_lt_of_le hk0 with hk | hk
    · have hkz : k = -1 := by omega
      subst hkz
      rw [habs]
      push_cast
      rw [show (-180 - 360 * (-1 : ℝ) : ℝ) = 180 by norm_num]
      rw [if_neg (by norm_num)]
      have h180 : (180 : ℝ) = 180 + 360 * ((0 : ℤ) : ℝ) := by norm_num
      rw [h180, cos_radians_int_mul_add_half]
    · have hk2 : k ≤ -2 := by omega
      have hk2r : (k : ℝ) ≤ -2 := by exact_mod_cast hk2
      have hgt : |a| > 180 := by rw [habs]; linarith
      rw [if_pos hgt, habs]
      have hm : 360 - (-180 - 360 * (k : ℝ)) = 180 + 360 * (((k + 1) : ℤ) : ℝ) := by
        push_cast; ring
      rw [hm, cos_radians_int_mul_add_half]

/-- Concrete weather sample used by the C5 counterexample: wind from the
north (from_dir = 0), 10 m wind speed 7 m/s. -/
def northWindSample : WeatherConditions :=
  { latitude := 50, longitude := 30, altitude := 0,
    wind_speed_10m := 7, wind_direction_10m := 0 }

/-- C5 counterexample: for travel heading equal to from_dir the code returns
plus wind_at_altitude (a headwind), not minus wind_at_altitude as the claim
states; the two exact cases in the claim are swapped. -/
theorem C5_counterexample :
    northWindSample.get_wind_speed_at_altitude 5 = 7 ∧
    northWindSample.get_effective_wind_speed 0 5 = 7 ∧
    northWindSample.get_effective_wind_speed 0 5 ≠
      -(northWindSample.get_wind_speed_at_altitude 5) := by
  have hwind : northWindSample.get_wind_speed_at_altitude 5 = 7 := by
    unfold WeatherConditions.get_wind_speed_at_altitude northWindSample
    norm_num
  have heff : northWindSample.get_effective_wind_speed 0 5 = 7 := by
    rw [get_effective_wind_speed_eq, hwind]
    rw [show northWindSample.wind_direction_10m = 0 from rfl]
    rw [show |(0:ℝ) - 0| = 0 by norm_num]
    rw [if_neg (by norm_num : ¬ (0:ℝ) > 180)]
    rw [show radians 0 = 0 by unfold radians; ring, Real.cos_zero]
    norm_num
  refine ⟨hwind, heff, ?_⟩
  rw [heff, hwind]
  norm_num

/-- C5 (amended): for every weather sample with non-negative wind speeds,
effective_wind(h, alt) lies in the closed interval from minus v to plus v
where v = wind_at_altitude(alt); it equals exactly plus v (headwind) when
h ≡ from_dir (mod 360) and exactly minus v (tailwind) when
h − from_dir ≡ 180 (mod 360). The original claim had the two exact cases
swapped. -/
theorem C5_effective_wind_range_and_extremes (w : WeatherConditions)
    (h10 : 0 ≤ w.wind_speed_10m)
    (h80 : ∀ v, w.wind_speed_80m = some v → 0 ≤ v)
    (heading alt : ℝ) :
    (-(w.get_wind_speed_at_altitude alt) ≤ w.get_effective_wind_speed heading alt ∧
      w.get_effective_wind_speed heading alt ≤ w.get_wind_speed_at_altitude alt) ∧
    ((∃ k : ℤ, heading - w.wind_direction_10m = 360 * k) →
      w.get_effective_wind_speed heading alt = w.get_wind_speed_at_altitude alt) ∧
    ((∃ k : ℤ, heading - w.wind_direction_10m = 180 + 360 * k) →
      w.get_effective_wind_speed heading alt = -(w.get_wind_speed_at_altitude alt)) := by
  have hv : 0 ≤ w.get_wind_speed_at_altitude alt := wind_speed_nonneg w h10 h80 alt
  rw [get_effective_wind_speed_eq]
  set v := w.get_wind_speed_at_altitude alt with hvdef
  set θ := radians (if |heading - w.wind_direction_10m| > 180
    then 360 - |heading - w.wind_direction_10m|
    else |heading - w.wind_direction_10m|) with hθ
  refine ⟨⟨?_, ?_⟩, ?_, ?_⟩
  · have h1 : -1 ≤ Real.cos θ := Real.neg_one_le_cos θ
    nlinarith
  · have h1 : Real.cos θ ≤ 1 := Real.cos_le_one θ
    nlinarith
  · rintro ⟨k, hk⟩
    have hc : Real.cos θ = 1 := by
      rw [hθ]
      exact cos_angle_diff_of_full_turn _ k hk
    rw [hc, mul_one]
  · rintro ⟨k, hk⟩
    have hc : Real.cos θ = -1 := by
      rw [hθ]
      exact cos_angle_diff_of_half_turn _ k hk
    rw [hc]
    ring

/-- C5 witness: the amended theorem applied to a concrete sample, heading and
altitude, discharging every hypothesis. -/
theorem C5_witness :
    northWindSample.get_effective_wind_speed 180 25 =
      -(northWindSample.get_wind_speed_at_altitude 25) := by
  have h := C5_effective_wind_range_and_extremes northWindSample
    (by rw [show northWindSample.wind_speed_10m = 7 from rfl]; norm_num)
    (by intro v hv; simp [northWindSample] at hv) 180 25
  refine h.2.2 ⟨0, ?_⟩
  rw [show northWindSample.wind_direction_10m = 0 from rfl]
  norm_num

/-- Grid snapping for the weather cache, from WeatherManager round_to_grid
with the 1000 m resolution constant. Mathlib round is used for the Python
round builtin; the two differ only on exact half-integers, which no embedded
result depends on. -/
def round_to_grid (latitude longitude : ℝ) : ℝ × ℝ :=
  let res : ℝ := 1000
  let lat_per_meter : ℝ := 1 / 111320
  let lon_per_meter : ℝ := 1 / (111320 * Real.cos (radians latitude))
  let lat_grid := (round (latitude / (res * lat_per_meter)) : ℤ) * (res * lat_per_meter)
  let lon_grid := (round (longitude / (res * lon_per_meter)) : ℤ) * (res * lon_per_meter)
  (lat_grid, lon_grid)

/-- Mutable state of a WeatherManager: the grid-keyed cache (in insertion
order, as a Python dict iterates) and the set of grid keys recorded as
fetched. The external WeatherProvider is passed separately as a function. -/
structure WeatherManagerState where
  weather_cache : List ((ℝ × ℝ) × WeatherConditions)
  fetched_points : List (ℝ × ℝ)
  use_weather : Bool

/-- Exact-key dictionary lookup in the weather cache. -/
def cacheLookup (cache : List ((ℝ × ℝ) × WeatherConditions)) (k : ℝ × ℝ) :
    Option WeatherConditions :=
  (cache.find? (fun kv => decide (kv.1 = k))).map (fun kv => kv.2)

/-- Nearest cached sample within 5 km, from WeatherManager
find_nearby_weather. The running minimum distance starts at infinity,
rendered as an Option that is none until a candidate below 5 km is seen. -/
def find_nearby_weather (cache : List ((ℝ × ℝ) × WeatherConditions))
    (latitude longitude : ℝ) : Option WeatherConditions :=
  let step := fun (acc : Option ℝ × Option WeatherConditions)
      (kv : (ℝ × ℝ) × WeatherConditions) =>
    let d := haversine_distance latitude longitude kv.1.1 kv.1.2
    let better := match acc.1 with
      | none => d < 5000
      | some m => d < m ∧ d < 5000
    if better then (some d, some kv.2) else acc
  (cache.foldl step (none, none)).2

/-- Cache-then-fetch lookup, from WeatherManager get_weather_for_point.
The provider argument stands for the external weather client
WeatherProvider.get_weather (timestamp dropped: the embedded logic never
reads it). The boolean in the result records whether an external fetch was
attempted during the call. -/
def get_weather_for_point (provider : ℝ → ℝ → ℝ → Option WeatherConditions)
    (st : WeatherManagerState) (latitude longitude altitude : ℝ) :
    Option WeatherConditions × WeatherManagerState × Bool :=
  if st.use_weather = false then (none, st, false)
  else
    let grid_key := round_to_grid latitude longitude
    match cacheLookup st.weather_cache grid_key with
    | some w => (some w, st, false)
    | none =>
      match find_nearby_weather st.weather_cache latitude longitude with
      | some w => (some w, st, false)
      | none =>
        if grid_key ∈ st.fetched_points then (none, st, false)
        else
          match provider latitude longitude altitude with
          | some w =>
              (some w,
               { st with
                  weather_cache := st.weather_cache ++ [(grid_key, w)],
                  fetched_points := st.fetched_points ++ [grid_key] },
               true)
          | none => (none, st, true)

/-- A fresh manager session: empty cache, nothing recorded as fetched. -/
def freshWeatherManager : WeatherManagerState :=
  { weather_cache := [], fetched_points := [], use_weather := true }

/-- C7: after an external fetch fails, the failure is not recorded
(fetched_points is only updated on success), so a second get for the very
same point attempts a second external fetch in the same session. The claim
that at most one external fetch is ever attempted per grid key is violated;
the code contradicts its own comments, which say failed fetches are not
retried. -/
theorem C7_failed_fetch_retried :
    (get_weather_for_point (fun _ _ _ => none) freshWeatherManager 0 0 0 =
      (none, freshWeatherManager, true)) ∧
    (get_weather_for_point (fun _ _ _ => none)
        (get_weather_for_point (fun _ _ _ => none) freshWeatherManager 0 0 0).2.1
        0 0 0 = (none, freshWeatherManager, true)) := by
  have h1 : get_weather_for_point (fun _ _ _ => none) freshWeatherManager 0 0 0 =
      (none, freshWeatherManager, true) := by
    unfold get_weather_for_point freshWeatherManager
    simp [cacheLookup, find_nearby_weather]
  exact ⟨h1, by rw [h1]; exact h1⟩

/-- Waypoint record, from waypoint.py. Coordinates are embedded as reals. -/
structure Waypoint where
  latitude : ℝ
  longitude : ℝ
  altitude : ℝ
  name : Option String := none
  waypoint_type : String := "target"
deriving DecidableEq

/-- Constructor validation of Waypoint, from its post-init checks. -/
def Waypoint.valid (w : Waypoint) : Prop :=
  -90 ≤ w.latitude ∧ w.latitude ≤ 90 ∧
  -180 ≤ w.longitude ∧ w.longitude ≤ 180 ∧ 0 ≤ w.altitude

/-- Drone record, from drone.py, with the derived quantities of post-init
realised as functions (the pipeline always constructs drones with the
derived fields left to be computed). -/
structure Drone where
  name : String
  max_speed : ℝ
  max_altitude : ℝ
  min_altitude : ℝ
  battery_capacity : ℝ
  power_consumption : ℝ
  turn_radius : ℝ := 50
  climb_rate : ℝ := 5
  descent_rate : ℝ := 5

namespace Drone

/-- Derived maximum flight time in seconds, from Drone post-init. -/
def max_flight_time (d : Drone) : ℝ :=
  if d.power_consumption > 0 then d.battery_capacity / d.power_consumption * 3600
  else 3600

/-- Derived maximum range in meters, from Drone post-init. -/
def max_range (d : Drone) : ℝ := d.max_speed * d.max_flight_time

/-- Constructor validation, from Drone post-init. -/
def valid (d : Drone) : Prop :=
  d.min_altitude < d.max_altitude ∧ 0 < d.max_speed ∧ 0 < d.battery_capacity

/-- Estimated flight time, from Drone.estimate_flight_time. -/
def estimate_flight_time (d : Drone) (distance altitude_change : ℝ) : ℝ :=
  let horizontal_time := if d.max_speed > 0 then distance / d.max_speed else 0
  let vertical_time := if altitude_change ≠ 0 then |altitude_change| / d.climb_rate else 0
  max horizontal_time vertical_time

/-- Estimated energy in Wh, from Drone.estimate_energy_consumption. -/
def estimate_energy_consumption (d : Drone) (distance altitude_change : ℝ) : ℝ :=
  d.power_consumption * d.estimate_flight_time distance altitude_change / 3600

end Drone

/-- No-fly zone, from constraints.py. The shapely geometry is an external
library object; its three predicates used by the core (point containment,
point touching, 2D segment intersection) are embedded as abstract boolean
fields of the record. Points are (longitude, latitude) pairs exactly as the
source constructs shapely Points. -/
structure NoFlyZone where
  geomContainsPoint : ℝ × ℝ → Bool
  geomTouchesPoint : ℝ × ℝ → Bool
  geomIntersectsSeg : (ℝ × ℝ) → (ℝ × ℝ) → Bool
  min_altitude : ℝ := 0
  max_altitude : ℝ := 1000
  name : Option String := none

/-- Point-in-zone test, from NoFlyZone.contains: altitude inside the band
and the 2D point inside or on the polygon. -/
def NoFlyZone.contains (z : NoFlyZone) (p : ℝ × ℝ) (altitude : ℝ) : Bool :=
  if ¬ (z.min_altitude ≤ altitude ∧ altitude ≤ z.max_altitude) then false
  else z.geomContainsPoint p || z.geomTouchesPoint p

/-- Mission constraints, from constraints.py. -/
structure MissionConstraints where
  no_fly_zones : List NoFlyZone := []
  max_altitude : Option ℝ := none
  min_altitude : Option ℝ := none
  max_distance : Option ℝ := none
  max_flight_time : Option ℝ := none
  require_return_to_depot : Bool := true

/-- Per-point constraint check, from MissionConstraints.check_point.
Numeric values interpolated into the source messages are not reproduced;
the message text is otherwise the source text. -/
def MissionConstraints.check_point (c : MissionConstraints)
    (latitude longitude altitude : ℝ) (ground : Bool) : Bool × Option String :=
  let point := (longitude, latitude)
  let minViol : Bool := !ground &&
    (match c.min_altitude with
     | some m => decide (altitude < m)
     | none => false)
  if minViol then (false, some "Altitude is below minimum")
  else
    let maxViol : Bool :=
      match c.max_altitude with
      | some m => decide (altitude > m)
      | none => false
    if maxViol then (false, some "Altitude is above maximum")
    else
      match c.no_fly_zones.find? (fun z => z.contains point altitude) with
      | some z => (false, some ("Point is in no-fly zone: " ++ z.name.getD "unnamed"))
      | none => (true, none)

/-- Route metrics record, from route.py. -/
structure RouteMetrics where
  total_distance : ℝ := 0
  total_time : ℝ := 0
  total_energy : ℝ := 0
  max_altitude : ℝ := 0
  min_altitude : ℝ := 0
  waypoint_count : ℕ := 0
  risk_score : ℝ := 0
  avg_speed : ℝ := 0
deriving DecidableEq

/-- Route record, from route.py. -/
structure Route where
  waypoints : List Waypoint
  drone_name : Option String := none
  metrics : Option RouteMetrics := none

/-- Accumulator of the metric loop in Route.calculate_metrics: running
distance, time and energy totals plus the current speed carried across
segments. -/
structure MetricsAcc where
  dist : ℝ
  time : ℝ
  energy : ℝ
  speed : ℝ

/-- One iteration of the segment loop of Route.calculate_metrics in the
weather_data = None case: the weather branches are untaken, the effective
maximum speed is the drone maximum and no risk factor is recorded. The
heading computation of the source is dead in this case and elided. -/
def metricsStep (drone : Drone) (acc : MetricsAcc) (seg : Waypoint × Waypoint) :
    MetricsAcc :=
  let wp1 := seg.1
  let wp2 := seg.2
  let distance := haversine_distance wp1.latitude wp1.longitude wp2.latitude wp2.longitude
  let altitude_change := wp2.altitude - wp1.altitude
  let acceleration := drone.max_speed / 5
  let deceleration := drone.max_speed / 5
  let effective_max_speed := drone.max_speed
  let timed :=
    if distance > 0 then
      let accel_time := if acceleration > 0 then (effective_max_speed - acc.speed) / acceleration else 0
      let accel_distance := acc.speed * accel_time + 1/2 * acceleration * accel_time ^ 2
      let decel_time := if deceleration > 0 then effective_max_speed / deceleration else 0
      let decel_distance := effective_max_speed * decel_time - 1/2 * deceleration * decel_time ^ 2
      let cruise_distance := max 0 (distance - accel_distance - decel_distance)
      let cruise_time := if effective_max_speed > 0 then cruise_distance / effective_max_speed else 0
      let segment_time := accel_time + cruise_time + decel_time
      (segment_time, max 0 (effective_max_speed - deceleration * decel_time))
    else (0, acc.speed)
  let base_energy := drone.estimate_energy_consumption distance altitude_change
  let speed_factor := (effective_max_speed / drone.max_speed) ^ 2
  let energy_multiplier := 1 + 1/2 * (speed_factor - 1)
  let segment_energy := base_energy * energy_multiplier * 1
  { dist := acc.dist + distance,
    time := acc.time + timed.1,
    energy := acc.energy + segment_energy,
    speed := timed.2 }

/-- Route.calculate_metrics with weather_data = None (the configuration used
by the validators and by every claim exercised here): totals over consecutive
segments, altitude extrema over all waypoints, waypoint count, zero risk (no
weather means no risk factors), and average speed. -/
def calculate_metrics (waypoints : List Waypoint) (drone : Drone) : RouteMetrics :=
  match waypoints with
  | [] => {}
  | w :: rest =>
    let acc := (waypoints.zip rest).foldl (metricsStep drone)
      { dist := 0, time := 0, energy := 0, speed := 0 }
    { total_distance := acc.dist,
      total_time := acc.time,
      total_energy := acc.energy,
      max_altitude := (rest.map (fun x => x.altitude)).foldl max w.altitude,
      min_altitude := (rest.map (fun x => x.altitude)).foldl min w.altitude,
      waypoint_count := waypoints.length,
      risk_score := 0,
      avg_speed := if acc.time > 0 then acc.dist / acc.time else 0 }

/-- Initial great-circle bearing in degrees normalised to the interval
from 0 to 360, as computed by the cost model, kinematics checker and
optimizers. The Python float modulo is x − m·floor(x/m). -/
def pymod (x m : ℝ) : ℝ := x - m * (⌊x / m⌋ : ℤ)

/-- Bearing computation shared by cost_model.calculate_heading,
KinematicsChecker.calculate_heading and the optimizers. -/
def calculate_heading (lat1 lon1 lat2 lon2 : ℝ) : ℝ :=
  let lat1_rad := radians lat1
  let lat2_rad := radians lat2
  let delta_lon := radians (lon2 - lon1)
  let y := Real.sin delta_lon * Real.cos lat2_rad
  let x := Real.cos lat1_rad * Real.sin lat2_rad -
    Real.sin lat1_rad * Real.cos lat2_rad * Real.cos delta_lon
  let heading := atan2 y x * 180 / Real.pi
  pymod (heading + 360) 360

/-- Zone checker, from zone_checker.py: per-waypoint containment and
per-segment 2D intersection with altitude-band overlap. Each violation is
the pair of a message and an optional waypoint index. -/
def zone_check_route (waypoints : List Waypoint) (c : MissionConstraints) :
    List (String × Option ℕ) :=
  if waypoints = [] ∨ c.no_fly_zones = [] then []
  else
    let wpViolations := waypoints.enum.flatMap (fun p =>
      (c.no_fly_zones.filter
        (fun z => z.contains (p.2.longitude, p.2.latitude) p.2.altitude)).map
        (fun z => ("Waypoint " ++ toString p.1 ++ " is in no-fly zone: " ++
          z.name.getD "unnamed", some p.1)))
    let segViolations := (waypoints.zip waypoints.tail).enum.flatMap (fun p =>
      let wp1 := p.2.1
      let wp2 := p.2.2
      (c.no_fly_zones.filter (fun z =>
        z.geomIntersectsSeg (wp1.longitude, wp1.latitude) (wp2.longitude, wp2.latitude) &&
        decide (z.min_altitude ≤ max wp1.altitude wp2.altitude) &&
        decide (min wp1.altitude wp2.altitude ≤ z.max_altitude))).map
        (fun z => ("Route segment " ++ toString p.1 ++ "-" ++ toString (p.1 + 1) ++
          " intersects no-fly zone: " ++ z.name.getD "unnamed", some p.1)))
    wpViolations ++ segViolations

/-- The waypoint types whose minimum-altitude check is skipped by the
altitude checker. -/
def altMinExemptTypes : List String :=
  ["depot", "finish", "landing_segment", "landing_approach"]

/-- Per-waypoint altitude checks of AltitudeChecker.check_route. -/
def altitude_check_point (drone : Drone) (constraints : Option MissionConstraints)
    (idx : ℕ) (wp : Waypoint) : List (String × Option ℕ) :=
  let exempt := wp.waypoint_type ∈ altMinExemptTypes
  let droneMin :=
    if ¬ exempt ∧ wp.altitude < drone.min_altitude then
      [("Waypoint " ++ toString idx ++ " altitude is below drone minimum", some idx)]
    else []
  let droneMax :=
    if wp.altitude > drone.max_altitude then
      [("Waypoint " ++ toString idx ++ " altitude is above drone maximum", some idx)]
    else []
  let missionChecks :=
    match constraints with
    | none => []
    | some c =>
      let missionMin :=
        match c.min_altitude with
        | some m =>
          if ¬ exempt ∧ wp.altitude < m then
            [("Waypoint " ++ toString idx ++ " altitude is below mission minimum", some idx)]
          else []
        | none => []
      let missionMax :=
        match c.max_altitude with
        | some m =>
          if wp.altitude > m then
            [("Waypoint " ++ toString idx ++ " altitude is above mission maximum", some idx)]
          else []
        | none => []
      missionMin ++ missionMax
  droneMin ++ droneMax ++ missionChecks

/-- Climb and descent rate checks of AltitudeChecker.check_route for one
consecutive pair. -/
def altitude_check_rate (drone : Drone) (idx : ℕ) (prev wp : Waypoint) :
    List (String × Option ℕ) :=
  let altitude_change := wp.altitude - prev.altitude
  let distance := haversine_distance prev.latitude prev.longitude wp.latitude wp.longitude
  if distance > 0 then
    let time := distance / drone.max_speed
    let required_rate := if time > 0 then |altitude_change| / time else 0
    let climbViol :=
      if altitude_change > 0 ∧ required_rate > drone.climb_rate then
        [("Waypoint " ++ toString idx ++ " climb rate exceeds maximum", some idx)]
      else []
    let skipDescent :=
      wp.waypoint_type ∈ ["landing_segment", "landing_approach", "finish", "depot"] ∨
      prev.waypoint_type ∈ ["landing_segment", "landing_approach"]
    let descentViol :=
      if altitude_change < 0 ∧ required_rate > drone.descent_rate ∧ ¬ skipDescent then
        [("Waypoint " ++ toString idx ++ " descent rate exceeds maximum", some idx)]
      else []
    climbViol ++ descentViol
  else []

/-- Altitude checker, from altitude_checker.py. -/
def altitude_check_route (waypoints : List Waypoint) (drone : Drone)
    (constraints : Option MissionConstraints) : List (String × Option ℕ) :=
  waypoints.enum.flatMap (fun p =>
    altitude_check_point drone constraints p.1 p.2 ++
    (match p.1, waypoints.get? (p.1 - 1) with
     | 0, _ => []
     | Nat.succ _, some prev => altitude_check_rate drone p.1 prev p.2
     | Nat.succ _, none => []))

/-- Simplified Dubins Airplane path, from DubinsAirplane.calculate_path:
feasibility is decided by the climb and descent rates at a 15 m/s reference
speed; when feasible a linear interpolation of waypoints is returned. The
heading components of the configurations are accepted but never read,
exactly as in the source. -/
def dubins_calculate_path (climb_rate descent_rate : ℝ)
    (lat1 lon1 alt1 _h1 lat2 lon2 alt2 _h2 : ℝ) : Option (List (ℝ × ℝ × ℝ)) :=
  let distance := haversine_distance lat1 lon1 lat2 lon2
  let altitude_change := alt2 - alt1
  let time_horizontal := distance / 15
  let required_climb_rate := if time_horizontal > 0 then |altitude_change| / time_horizontal else 0
  if altitude_change > 0 ∧ required_climb_rate > climb_rate then none
  else if altitude_change < 0 ∧ required_climb_rate > descent_rate then none
  else
    let num_points := max 10 (⌊distance / 100⌋.toNat)
    some ((List.range (num_points + 1)).map (fun i =>
      let t : ℝ := (i : ℝ) / (num_points : ℝ)
      (lat1 + (lat2 - lat1) * t, lon1 + (lon2 - lon1) * t, alt1 + (alt2 - alt1) * t)))

/-- Kinematics checker, from kinematics_checker.py: validity flag and the
violation messages. -/
def kinematics_check_route (waypoints : List Waypoint) (drone : Drone) :
    Bool × List String :=
  if waypoints.length < 2 then (true, [])
  else
    let violations := (waypoints.zip waypoints.tail).enum.flatMap (fun p =>
      let wp1 := p.2.1
      let wp2 := p.2.2
      let heading1 := calculate_heading wp1.latitude wp1.longitude wp2.latitude wp2.longitude
      let heading2 :=
        match waypoints.get? (p.1 + 2) with
        | some wp3 => calculate_heading wp2.latitude wp2.longitude wp3.latitude wp3.longitude
        | none => heading1
      match dubins_calculate_path drone.climb_rate drone.descent_rate
        wp1.latitude wp1.longitude wp1.altitude heading1
        wp2.latitude wp2.longitude wp2.altitude heading2 with
      | none => ["Segment " ++ toString p.1 ++ "-" ++ toString (p.1 + 1) ++
          " is kinematically infeasible"]
      | some _ => [])
    (violations.isEmpty, violations)

/-- Result record of EnergyChecker.check_route. -/
structure EnergyCheckResult where
  is_valid : Bool
  message : Option String := none
  warning : Option String := none

/-- Energy checker, from energy_checker.py; recomputes the metrics without
weather when the route carries none, as the source does. -/
def energy_check_route (route : Route) (drone : Drone) : EnergyCheckResult :=
  if route.waypoints = [] then
    { is_valid := false, message := some "Route has no waypoints" }
  else
    let metrics := route.metrics.getD (calculate_metrics route.waypoints drone)
    let total_energy := metrics.total_energy
    if total_energy > drone.battery_capacity then
      { is_valid := false, message := some "Route energy exceeds battery capacity" }
    else if total_energy > drone.battery_capacity * 0.9 then
      { is_valid := true, warning := some "Route energy is close to battery limit" }
    else
      { is_valid := true, message := some "Route energy within capacity" }

/-- Aggregated validation verdict, from ValidationResult in
constraint_checker.py: the validity flag of the source is true exactly when
no violation was added. -/
structure ValidationResult where
  violations : List (String × String × Option ℕ)
  warnings : List (String × String × Option ℕ)

/-- Derived validity flag: add_violation in the source flips is_valid to
false, so the final flag is the emptiness of the violation list. -/
def ValidationResult.is_valid (r : ValidationResult) : Bool := r.violations.isEmpty

/-- Main route validation, from ConstraintChecker.validate_route: zone,
altitude, energy and kinematics checks in source order. -/
def validate_route (route : Route) (drone : Drone)
    (constraints : Option MissionConstraints) : ValidationResult :=
  if route.waypoints = [] then
    { violations := [("empty_route", "Route has no waypoints", none)], warnings := [] }
  else
    let zoneV := match constraints with
      | some c => (zone_check_route route.waypoints c).map
          (fun v => ("no_fly_zone", v.1, v.2))
      | none => []
    let altV := (altitude_check_route route.waypoints drone constraints).map
      (fun v => ("altitude", v.1, v.2))
    let energy := energy_check_route route drone
    let energyV := if energy.is_valid then []
      else [("energy", energy.message.getD "", (none : Option ℕ))]
    let energyW := match energy.warning with
      | some w => [("energy", w, (none : Option ℕ))]
      | none => []
    let kin := kinematics_check_route route.waypoints drone
    let kinV := if kin.1 then [] else kin.2.map (fun msg => ("kinematics", msg, (none : Option ℕ)))
    { violations := zoneV ++ altV ++ energyV ++ kinV, warnings := energyW }

theorem validate_route_violations (route : Route) (drone : Drone)
    (constraints : Option MissionConstraints) (h : route.waypoints ≠ []) :
    (validate_route route drone constraints).violations =
      (match constraints with
        | some c => (zone_check_route route.waypoints c).map
            (fun v => ("no_fly_zone", v.1, v.2))
        | none => []) ++
      ((altitude_check_route route.waypoints drone constraints).map
        (fun v => ("altitude", v.1, v.2))) ++
      (if (energy_check_route route drone).is_valid then []
        else [("energy", (energy_check_route route drone).message.getD "",
          (none : Option ℕ))]) ++
      (if (kinematics_check_route route.waypoints drone).1 then []
        else (kinematics_check_route route.waypoints drone).2.map
          (fun msg => ("kinematics", msg, (none : Option ℕ)))) := by
  unfold validate_route
  rw [if_neg h]

theorem calculate_metrics_single (wp : Waypoint) (d : Drone) :
    calculate_metrics [wp] d =
      { total_distance := 0, total_time := 0, total_energy := 0,
        max_altitude := wp.altitude, min_altitude := wp.altitude,
        waypoint_count := 1, risk_score := 0, avg_speed := 0 } := by
  unfold calculate_metrics
  norm_num

/-- The single waypoint of the C9 counterexample: a target at altitude 5. -/
def wpC9 : Waypoint := { latitude := 0, longitude := 0, altitude := 5 }

/-- The reference aircraft of the specification scenarios. -/
def droneC9 : Drone :=
  { name := "d", max_speed := 15, max_altitude := 120, min_altitude := 10,
    battery_capacity := 100, power_consumption := 50 }

/-- C9 counterexample: for the one-waypoint route at altitude 5 the computed
metrics have waypoint_count 1 and max_altitude 5 (not all zero), and since
the target waypoint sits below the drone minimum altitude the validation
verdict is invalid, so neither half of the claim holds universally. -/
theorem C9_counterexample :
    (calculate_metrics [wpC9] droneC9).waypoint_count = 1 ∧
    (calculate_metrics [wpC9] droneC9).max_altitude = 5 ∧
    (validate_route { waypoints := [wpC9] } droneC9 none).is_valid = false := by
  refine ⟨?_, ?_, ?_⟩
  · rw [calculate_metrics_single]
  · rw [calculate_metrics_single]
    exact rfl
  · have haltne : altitude_check_route [wpC9] droneC9 none ≠ [] := by
      unfold altitude_check_route altitude_check_point
      norm_num [wpC9, droneC9, altMinExemptTypes]
      decide
    have hviol := validate_route_violations { waypoints := [wpC9] } droneC9 none (by simp)
    unfold ValidationResult.is_valid
    rw [hviol]
    have hne : ∀ (l : List (String × String × Option ℕ)), l ≠ [] → l.isEmpty = false := by
      intro l hl
      cases l with
      | nil => exact absurd rfl hl
      | cons a t => rfl
    apply hne
    intro hcontra
    obtain ⟨h1, _⟩ := List.append_eq_nil.mp hcontra
    obtain ⟨h2, _⟩ := List.append_eq_nil.mp h1
    obtain ⟨_, h3⟩ := List.append_eq_nil.mp h2
    exact haltne (List.map_eq_nil_iff.mp h3)

/-- C9 (amended): for a route of exactly one waypoint the computed metrics
have zero distance, time, energy, risk and average speed, while
waypoint_count is 1 and both altitude extrema equal the waypoint altitude;
and the validation verdict is valid provided the waypoint itself passes the
per-point altitude and zone checks and the aircraft battery capacity is
positive. The original claim stated that all metrics are zero and that
validity holds unconditionally. -/
theorem C9_single_waypoint_route (wp : Waypoint) (d : Drone)
    (c : Option MissionConstraints)
    (hbat : 0 < d.battery_capacity)
    (hdmax : wp.altitude ≤ d.max_altitude)
    (hdmin : wp.waypoint_type ∉ altMinExemptTypes → d.min_altitude ≤ wp.altitude)
    (hcmin : ∀ cc m, c = some cc → cc.min_altitude = some m →
        wp.waypoint_type ∉ altMinExemptTypes → m ≤ wp.altitude)
    (hcmax : ∀ cc m, c = some cc → cc.max_altitude = some m → wp.altitude ≤ m)
    (hz : ∀ cc, c = some cc → ∀ z ∈ cc.no_fly_zones,
        z.contains (wp.longitude, wp.latitude) wp.altitude = false) :
    calculate_metrics [wp] d =
      { total_distance := 0, total_time := 0, total_energy := 0,
        max_altitude := wp.altitude, min_altitude := wp.altitude,
        waypoint_count := 1, risk_score := 0, avg_speed := 0 } ∧
    (validate_route { waypoints := [wp] } d c).is_valid = true := by
  refine ⟨calculate_metrics_single wp d, ?_⟩
  have hmin_cond : ¬ (wp.waypoint_type ∉ altMinExemptTypes ∧
      wp.altitude < d.min_altitude) := by
    rintro ⟨hex, hlt⟩
    exact absurd hlt (not_lt.mpr (hdmin hex))
  have hmax_cond : ¬ (wp.altitude > d.max_altitude) := not_lt.mpr hdmax
  have haltpt : altitude_check_point d c 0 wp = [] := by
    simp only [altitude_check_point]
    rw [if_neg hmin_cond, if_neg hmax_cond]
    rcases hcv : c with _ | cc
    · simp
    · simp only []
      have hm1 : (match cc.min_altitude with
          | some m =>
            if ¬ wp.waypoint_type ∈ altMinExemptTypes ∧ wp.altitude < m then
              [("Waypoint " ++ toString 0 ++ " altitude is below mission minimum",
                some 0)]
            else []
          | none => ([] : List (String × Option ℕ))) = [] := by
        rcases hmv : cc.min_altitude with _ | m
        · rfl
        · simp only []
          rw [if_neg]
          rintro ⟨hex, hlt⟩
          exact absurd hlt (not_lt.mpr (hcmin cc m hcv hmv hex))
      have hm2 : (match cc.max_altitude with
          | some m =>
            if wp.altitude > m then
              [("Waypoint " ++ toString 0 ++ " altitude is above mission maximum",
                some 0)]
            else []
          | none => ([] : List (String × Option ℕ))) = [] := by
        rcases hmv : cc.max_altitude with _ | m
        · rfl
        · simp only []
          rw [if_neg (not_lt.mpr (hcmax cc m hcv hmv))]
      rw [hm1, hm2]
      simp
  have halt : altitude_check_route [wp] d c = [] := by
    unfold altitude_check_route
    rw [show ([wp].enum) = [(0, wp)] from rfl]
    simp [haltpt]
  have hzone : ∀ cc, c = some cc → zone_check_route [wp] cc = [] := by
    intro cc hcc
    unfold zone_check_route
    by_cases hznil : cc.no_fly_zones = []
    · rw [if_pos (Or.inr hznil)]
    · rw [if_neg (by simp [hznil])]
      have hfil : cc.no_fly_zones.filter
          (fun z => z.contains (wp.longitude, wp.latitude) wp.altitude) = [] := by
        apply List.filter_eq_nil_iff.mpr
        intro z hzmem
        simp [hz cc hcc z hzmem]
      rw [show ([wp].enum) = [(0, wp)] from rfl]
      simp [hfil]
  have henergy : (energy_check_route { waypoints := [wp] } d).is_valid = true := by
    have h1 : ¬ ((0:ℝ) > d.battery_capacity) := not_lt.mpr hbat.le
    have h2 : ¬ ((0:ℝ) > d.battery_capacity * 0.9) := by
      apply not_lt.mpr
      nlinarith
    unfold energy_check_route
    rw [if_neg (by simp : ¬ ([wp] = ([] : List Waypoint)))]
    show (if (calculate_metrics [wp] d).total_energy > d.battery_capacity then
        ({ is_valid := false,
           message := some "Route energy exceeds battery capacity" } : EnergyCheckResult)
      else if (calculate_metrics [wp] d).total_energy > d.battery_capacity * 0.9 then
        { is_valid := true, warning := some "Route energy is close to battery limit" }
      else { is_valid := true, message := some "Route energy within capacity" }).is_valid
      = true
    simp only [calculate_metrics_single]
    rw [if_neg h1, if_neg h2]
  have hkin : kinematics_check_route [wp] d = (true, []) := by
    unfold kinematics_check_route
    norm_num
  unfold ValidationResult.is_valid
  rw [validate_route_violations _ _ _ (by simp)]
  simp only [show ({ waypoints := [wp] } : Route).waypoints = [wp] from rfl]
  rcases hcv : c with _ | cc
  · subst hcv
    rw [halt]
    simp [henergy, hkin]
  · subst hcv
    rw [halt]
    simp [henergy, hkin, hzone cc rfl]

/-- Ground waypoint used by the C9 witness. -/
def wpDepotC9 : Waypoint :=
  { latitude := 0, longitude := 0, altitude := 0, waypoint_type := "depot" }

/-- C9 witness: the amended theorem applied to a concrete depot waypoint and
the reference aircraft, all hypotheses discharged. -/
theorem C9_witness :
    calculate_metrics [wpDepotC9] droneC9 =
      { total_distance := 0, total_time := 0, total_energy := 0,
        max_altitude := wpDepotC9.altitude, min_altitude := wpDepotC9.altitude,
        waypoint_count := 1, risk_score := 0, avg_speed := 0 } ∧
    (validate_route { waypoints := [wpDepotC9] } droneC9 none).is_valid = true := by
  apply C9_single_waypoint_route
  · show (0:ℝ) < 100
    norm_num
  · show (0:ℝ) ≤ 120
    norm_num
  · intro h
    exact absurd (by decide : wpDepotC9.waypoint_type ∈ altMinExemptTypes) h
  · intro cc m h
    cases h
  · intro cc m h
    cases h
  · intro cc h
    cases h

/-- Turn-angle penalty helper of the genetic optimizer, from
GeneticOptimizer.calculate_turn_angle; the private bearing helper of the
optimizer is the same formula as calculate_heading. -/
def calculate_turn_angle (wp1 wp2 wp3 : Waypoint) : ℝ :=
  let bearing1 := calculate_heading wp1.latitude wp1.longitude wp2.latitude wp2.longitude
  let bearing2 := calculate_heading wp2.latitude wp2.longitude wp3.latitude wp3.longitude
  let angle := |bearing2 - bearing1|
  if angle > 180 then 360 - angle else angle

/-- Accumulator of the fitness loop of GeneticOptimizer. -/
structure FitnessAcc where
  dist : ℝ
  energy : ℝ
  turn : ℝ

/-- Fitness of a candidate waypoint ordering, from GeneticOptimizer.fitness.
The GeneticOptimizer class receives no mission constraints and this function
reads no no-fly-zone information at all: fitness is built from distance,
energy and turn penalties only. -/
def genetic_fitness (drone : Drone) (waypoints : List Waypoint) : ℝ :=
  if waypoints.length < 2 then 0
  else
    let acc := ((waypoints.zip waypoints.tail).enum).foldl
      (fun (acc : FitnessAcc) (p : ℕ × (Waypoint × Waypoint)) =>
      let wp1 := p.2.1
      let wp2 := p.2.2
      let distance := haversine_distance wp1.latitude wp1.longitude wp2.latitude wp2.longitude
      let energy := drone.estimate_energy_consumption distance (wp2.altitude - wp1.altitude)
      let turn :=
        match p.1, waypoints.get? (p.1 - 1) with
        | 0, _ => 0
        | Nat.succ _, some wp0 =>
          let angle := calculate_turn_angle wp0 wp1 wp2
          if angle > 45 then (angle - 45) * 10 else 0
        | Nat.succ _, none => 0
      { dist := acc.dist + distance,
        energy := acc.energy + energy,
        turn := acc.turn + turn })
      ⟨0, 0, 0⟩
    1 / (1 + acc.dist / 10000 + acc.energy / 100 + acc.turn / 1000)

/-- No-fly-zone penalty shared verbatim by ACOOptimizer.check_no_fly_zones
and Particle.check_no_fly_zones (PSO): 10000 per waypoint-zone containment
and per segment-zone crossing. -/
def check_no_fly_zones : Option MissionConstraints → List Waypoint → ℝ
  | none, _ => 0
  | some c, waypoints =>
    if c.no_fly_zones = [] then 0
    else
      let wpPenalty := (waypoints.map (fun wp =>
        ((c.no_fly_zones.filter
          (fun z => z.contains (wp.longitude, wp.latitude) wp.altitude)).length : ℝ)
          * 10000)).sum
      let segPenalty := ((waypoints.zip waypoints.tail).map (fun sp =>
        ((c.no_fly_zones.filter (fun z =>
          z.geomIntersectsSeg (sp.1.longitude, sp.1.latitude)
            (sp.2.longitude, sp.2.latitude) &&
          decide (z.min_altitude ≤ max sp.1.altitude sp.2.altitude) &&
          decide (min sp.1.altitude sp.2.altitude ≤ z.max_altitude))).length : ℝ)
          * 10000)).sum
      wpPenalty + segPenalty

/-- Candidate cost of the ACO optimizer, from ACOOptimizer.calculate_cost:
infinite for the empty middle, infinite when the assembled route violates any
no-fly zone, otherwise the summed horizontal distance. Infinity is the top
element of WithTop. -/
def aco_calculate_cost (constraints : Option MissionConstraints)
    (fixed_start fixed_end route : List Waypoint) : WithTop ℝ :=
  if route = [] then ⊤
  else if check_no_fly_zones constraints (fixed_start ++ route ++ fixed_end) > 0 then ⊤
  else (((fixed_start ++ route ++ fixed_end).zip
      (fixed_start ++ route ++ fixed_end).tail).map (fun sp =>
    haversine_distance sp.1.latitude sp.1.longitude sp.2.latitude sp.2.longitude)).sum

/-- Particle cost of the PSO optimizer, from Particle.calculate_cost:
infinite on a no-fly-zone violation, otherwise the summed horizontal
distance. -/
def pso_calculate_cost (constraints : Option MissionConstraints)
    (waypoints : List Waypoint) : WithTop ℝ :=
  if check_no_fly_zones constraints waypoints > 0 then ⊤
  else ((waypoints.zip waypoints.tail).map (fun sp =>
    haversine_distance sp.1.latitude sp.1.longitude sp.2.latitude sp.2.longitude)).sum

/-- A candidate ordering violates the zones of the constraints: some
waypoint is contained in a zone, or some consecutive 2D segment crosses a
zone with overlapping altitude bands. -/
def zoneViolation (c : MissionConstraints) (waypoints : List Waypoint) : Prop :=
  (∃ wp ∈ waypoints, ∃ z ∈ c.no_fly_zones,
    z.contains (wp.longitude, wp.latitude) wp.altitude = true) ∨
  (∃ sp ∈ waypoints.zip waypoints.tail, ∃ z ∈ c.no_fly_zones,
    z.geomIntersectsSeg (sp.1.longitude, sp.1.latitude)
      (sp.2.longitude, sp.2.latitude) = true ∧
    z.min_altitude ≤ max sp.1.altitude sp.2.altitude ∧
    min sp.1.altitude sp.2.altitude ≤ z.max_altitude)

theorem list_sum_pos_of_mem {l : List ℝ} (h0 : ∀ x ∈ l, 0 ≤ x)
    {x : ℝ} (hx : x ∈ l) (hpos : 0 < x) : 0 < l.sum :=
  lt_of_lt_of_le hpos (List.single_le_sum h0 x hx)

theorem check_no_fly_zones_pos (c : MissionConstraints) (waypoints : List Waypoint)
    (h : zoneViolation c waypoints) :
    0 < check_no_fly_zones (some c) waypoints := by
  have hzne : c.no_fly_zones ≠ [] := by
    rcases h with ⟨_, _, z, hz, _⟩ | ⟨_, _, z, hz, _⟩ <;>
      exact fun hnil => by simp [hnil] at hz
  simp only [check_no_fly_zones]
  rw [if_neg hzne]
  have hwp_nonneg : ∀ x ∈ (waypoints.map (fun wp =>
      ((c.no_fly_zones.filter
        (fun z => z.contains (wp.longitude, wp.latitude) wp.altitude)).length : ℝ)
        * 10000)), 0 ≤ x := by
    intro x hx
    obtain ⟨wp, _, rfl⟩ := List.mem_map.mp hx
    positivity
  have hseg_nonneg : ∀ x ∈ ((waypoints.zip waypoints.tail).map (fun sp =>
      ((c.no_fly_zones.filter (fun z =>
        z.geomIntersectsSeg (sp.1.longitude, sp.1.latitude)
          (sp.2.longitude, sp.2.latitude) &&
        decide (z.min_altitude ≤ max sp.1.altitude sp.2.altitude) &&
        decide (min sp.1.altitude sp.2.altitude ≤ z.max_altitude))).length : ℝ)
        * 10000)), 0 ≤ x := by
    intro x hx
    obtain ⟨sp, _, rfl⟩ := List.mem_map.mp hx
    positivity
  rcases h with ⟨wp, hwp, z, hz, hcont⟩ | ⟨sp, hsp, z, hz, hint, halt1, halt2⟩
  · have hflt : z ∈ c.no_fly_zones.filter
        (fun zz => zz.contains (wp.longitude, wp.latitude) wp.altitude) :=
      List.mem_filter.mpr ⟨hz, hcont⟩
    have hlen : 0 < (c.no_fly_zones.filter
        (fun zz => zz.contains (wp.longitude, wp.latitude) wp.altitude)).length :=
      List.length_pos.mpr (List.ne_nil_of_mem hflt)
    have htermpos : (0:ℝ) < ((c.no_fly_zones.filter
        (fun zz => zz.contains (wp.longitude, wp.latitude) wp.altitude)).length : ℝ)
        * 10000 := by
      have : (0:ℝ) < ((c.no_fly_zones.filter
          (fun zz => zz.contains (wp.longitude, wp.latitude) wp.altitude)).length : ℝ) := by
        exact_mod_cast hlen
      linarith
    have hsum1 : 0 < (waypoints.map (fun wp =>
        ((c.no_fly_zones.filter
          (fun z => z.contains (wp.longitude, wp.latitude) wp.altitude)).length : ℝ)
          * 10000)).sum :=
      list_sum_pos_of_mem hwp_nonneg (List.mem_map_of_mem _ hwp) htermpos
    have hsum2 : 0 ≤ ((waypoints.zip waypoints.tail).map (fun sp =>
        ((c.no_fly_zones.filter (fun z =>
          z.geomIntersectsSeg (sp.1.longitude, sp.1.latitude)
            (sp.2.longitude, sp.2.latitude) &&
          decide (z.min_altitude ≤ max sp.1.altitude sp.2.altitude) &&
          decide (min sp.1.altitude sp.2.altitude ≤ z.max_altitude))).length : ℝ)
          * 10000)).sum := List.sum_nonneg hseg_nonneg
    linarith
  · have hpred : (z.geomIntersectsSeg (sp.1.longitude, sp.1.latitude)
        (sp.2.longitude, sp.2.latitude) &&
        decide (z.min_altitude ≤ max sp.1.altitude sp.2.altitude) &&
        decide (min sp.1.altitude sp.2.altitude ≤ z.max_altitude)) = true := by
      simp [hint, halt1, halt2]
    have hflt : z ∈ c.no_fly_zones.filter (fun z =>
        z.geomIntersectsSeg (sp.1.longitude, sp.1.latitude)
          (sp.2.longitude, sp.2.latitude) &&
        decide (z.min_altitude ≤ max sp.1.altitude sp.2.altitude) &&
        decide (min sp.1.altitude sp.2.altitude ≤ z.max_altitude)) :=
      List.mem_filter.mpr ⟨hz, hpred⟩
    have hlen : 0 < (c.no_fly_zones.filter (fun z =>
        z.geomIntersectsSeg (sp.1.longitude, sp.1.latitude)
          (sp.2.longitude, sp.2.latitude) &&
        decide (z.min_altitude ≤ max sp.1.altitude sp.2.altitude) &&
        decide (min sp.1.altitude sp.2.altitude ≤ z.max_altitude))).length :=
      List.length_pos.mpr (List.ne_nil_of_mem hflt)
    have htermpos : (0:ℝ) < ((c.no_fly_zones.filter (fun z =>
        z.geomIntersectsSeg (sp.1.longitude, sp.1.latitude)
          (sp.2.longitude, sp.2.latitude) &&
        decide (z.min_altitude ≤ max sp.1.altitude sp.2.altitude) &&
        decide (min sp.1.altitude sp.2.altitude ≤ z.max_altitude))).length : ℝ)
        * 10000 := by
      have h0 : (0:ℝ) < ((c.no_fly_zones.filter (fun z =>
          z.geomIntersectsSeg (sp.1.longitude, sp.1.latitude)
            (sp.2.longitude, sp.2.latitude) &&
          decide (z.min_altitude ≤ max sp.1.altitude sp.2.altitude) &&
          decide (min sp.1.altitude sp.2.altitude ≤ z.max_altitude))).length : ℝ) := by
        exact_mod_cast hlen
      linarith
    have hsum2 : 0 < ((waypoints.zip waypoints.tail).map (fun sp =>
        ((c.no_fly_zones.filter (fun z =>
          z.geomIntersectsSeg (sp.1.longitude, sp.1.latitude)
            (sp.2.longitude, sp.2.latitude) &&
          decide (z.min_altitude ≤ max sp.1.altitude sp.2.altitude) &&
          decide (min sp.1.altitude sp.2.altitude ≤ z.max_altitude))).length : ℝ)
          * 10000)).sum :=
      list_sum_pos_of_mem hseg_nonneg (List.mem_map_of_mem _ hsp) htermpos
    have hsum1 : 0 ≤ (waypoints.map (fun wp =>
        ((c.no_fly_zones.filter
          (fun z => z.contains (wp.longitude, wp.latitude) wp.altitude)).length : ℝ)
          * 10000)).sum := List.sum_nonneg hwp_nonneg
    linarith

/-- C4 (amended): the ACO and PSO optimizers assign cost infinity to any
candidate ordering whose assembled route has a waypoint inside a no-fly
zone or a 2D segment crossing a zone with overlapping altitude band. The
genetic optimizer receives no constraints and applies no such penalty (see
the counterexample), so the original all-three claim fails for it. -/
theorem C4_aco_pso_infinite_on_violation (c : MissionConstraints)
    (fixed_start fixed_end route waypoints : List Waypoint)
    (h1 : zoneViolation c (fixed_start ++ route ++ fixed_end))
    (h2 : zoneViolation c waypoints) :
    aco_calculate_cost (some c) fixed_start fixed_end route = ⊤ ∧
    pso_calculate_cost (some c) waypoints = ⊤ := by
  constructor
  · unfold aco_calculate_cost
    by_cases hr : route = []
    · rw [if_pos hr]
    · rw [if_neg hr, if_pos (check_no_fly_zones_pos c _ h1)]
  · unfold pso_calculate_cost
    rw [if_pos (check_no_fly_zones_pos c _ h2)]

/-- Zone whose external geometry contains every 2D point; used to build the
C4 counterexample. -/
def everywhereZone : NoFlyZone :=
  { geomContainsPoint := fun _ => true,
    geomTouchesPoint := fun _ => false,
    geomIntersectsSeg := fun _ _ => true,
    min_altitude := 0, max_altitude := 1000, name := some "Z" }

/-- Constraints carrying the everywhere zone. -/
def zoneConstraintsC4 : MissionConstraints := { no_fly_zones := [everywhereZone] }

/-- Waypoints of the C4 counterexample, all at the same 2D point. -/
def gWA : Waypoint := { latitude := 0, longitude := 0, altitude := 0 }

/-- Second waypoint of the C4 counterexample, 36 m above gWA. -/
def gWB : Waypoint := { latitude := 0, longitude := 0, altitude := 36 }

theorem everywhereZone_contains (wp : Waypoint) (h0 : 0 ≤ wp.altitude)
    (h1 : wp.altitude ≤ 1000) :
    everywhereZone.contains (wp.longitude, wp.latitude) wp.altitude = true := by
  unfold NoFlyZone.contains everywhereZone
  rw [if_neg]
  · rfl
  · push_neg
    show (0:ℝ) ≤ wp.altitude ∧ wp.altitude ≤ 1000
    exact ⟨h0, h1⟩

theorem violationC4 : zoneViolation zoneConstraintsC4 [gWA, gWB, gWA] := by
  left
  refine ⟨gWA, by simp, everywhereZone, by simp [zoneConstraintsC4], ?_⟩
  apply everywhereZone_contains
  · show (0:ℝ) ≤ 0
    norm_num
  · show (0:ℝ) ≤ 1000
    norm_num

theorem bearing_degenerate : calculate_heading 0 0 0 0 = 0 := by
  unfold calculate_heading pymod radians
  norm_num [atan2_zero_zero]

/-- C4 counterexample: a candidate whose every waypoint lies inside a no-fly
zone nevertheless receives the strictly positive genetic fitness 500/501 (not
the minimal fitness the claim requires): GeneticOptimizer.fitness takes no
zone information at all. -/
theorem C4_counterexample :
    zoneViolation zoneConstraintsC4 [gWA, gWB, gWA] ∧
    genetic_fitness droneC9 [gWA, gWB, gWA] = 500 / 501 ∧
    (0:ℝ) < genetic_fitness droneC9 [gWA, gWB, gWA] := by
  have henergyAB : droneC9.estimate_energy_consumption 0 36 = 0.1 := by
    unfold Drone.estimate_energy_consumption Drone.estimate_flight_time droneC9
    norm_num [max_def]
  have henergyBA : droneC9.estimate_energy_consumption 0 (-36) = 0.1 := by
    unfold Drone.estimate_energy_consumption Drone.estimate_flight_time droneC9
    norm_num [max_def]
  have hturn : calculate_turn_angle gWA gWB gWA = 0 := by
    unfold calculate_turn_angle
    rw [show gWA.latitude = 0 from rfl, show gWA.longitude = 0 from rfl,
      show gWB.latitude = 0 from rfl, show gWB.longitude = 0 from rfl]
    rw [bearing_degenerate]
    norm_num
  have hfit : genetic_fitness droneC9 [gWA, gWB, gWA] = 500 / 501 := by
    unfold genetic_fitness
    rw [if_neg (by norm_num : ¬ ([gWA, gWB, gWA].length < 2))]
    rw [show ([gWA, gWB, gWA].zip [gWA, gWB, gWA].tail).enum =
      [(0, (gWA, gWB)), (1, (gWB, gWA))] from rfl]
    simp only [List.foldl_cons, List.foldl_nil]
    rw [show gWA.latitude = 0 from rfl, show gWA.longitude = 0 from rfl,
      show gWB.latitude = 0 from rfl, show gWB.longitude = 0 from rfl,
      show gWA.altitude = 0 from rfl, show gWB.altitude = 36 from rfl]
    rw [haversine_self]
    simp only [show [gWA, gWB, gWA].get? 0 = some gWA from rfl]
    rw [hturn]
    norm_num [henergyAB, henergyBA]
  refine ⟨violationC4, hfit, ?_⟩
  rw [hfit]
  norm_num

/-- C4 witness: the amended theorem applied to the concrete violating
candidate, hypotheses discharged by the everywhere zone. -/
theorem C4_witness :
    aco_calculate_cost (some zoneConstraintsC4) [gWA] [gWA] [gWB] = ⊤ ∧
    pso_calculate_cost (some zoneConstraintsC4) [gWA, gWB, gWA] = ⊤ := by
  have h := C4_aco_pso_infinite_on_violation zoneConstraintsC4 [gWA] [gWA] [gWB]
    [gWA, gWB, gWA] (by simpa using violationC4) violationC4
  exact h

/-- Cost model record, from cost_model.py. GraphBuilder constructs CostModel
with weather_manager = None, so the cached-dictionary weather path is the one
embedded here; the manager path performs external network calls and is never
active in graphs built by the pipeline. -/
structure CostModelM where
  drone : Drone
  constraints : MissionConstraints := {}
  weather_data : List ((ℝ × ℝ) × WeatherConditions) := []

namespace CostModelM

/-- 3D distance, from CostModel.calculate_distance. -/
def calculate_distance (cm : CostModelM) (lat1 lon1 alt1 lat2 lon2 alt2 : ℝ) : ℝ :=
  Real.sqrt ((haversine_distance lat1 lon1 lat2 lon2) ^ 2 + |alt2 - alt1| ^ 2)

/-- Nearest cached weather sample within 5 km, from
CostModel.get_weather_for_point in its weather_manager = None configuration. -/
def get_weather_for_point (cm : CostModelM) (latitude longitude : ℝ) :
    Option WeatherConditions :=
  if cm.weather_data = [] then none
  else
    let folded := cm.weather_data.foldl
      (fun (acc : Option ℝ × Option WeatherConditions) kv =>
        let d := haversine_distance latitude longitude kv.1.1 kv.1.2
        match acc.1 with
        | none => (some d, some kv.2)
        | some m => if d < m then (some d, some kv.2) else acc)
      (none, none)
    match folded with
    | (some m, some w) => if m < 5000 then some w else none
    | _ => none

/-- Composite edge cost, from CostModel.calculate_cost: 3D distance plus
climb, descent and turn penalties, wind and weather penalties from the
cached sample at the segment midpoint, inertia-aware travel time converted
at 10 m per second, and speed- and wind-adjusted energy. -/
def calculate_cost (cm : CostModelM)
    (lat1 lon1 alt1 lat2 lon2 alt2 current_speed : ℝ) : ℝ :=
  let distance := cm.calculate_distance lat1 lon1 alt1 lat2 lon2 alt2
  let horizontal_distance := haversine_distance lat1 lon1 lat2 lon2
  let altitude_change := alt2 - alt1
  let avg_speed := cm.drone.max_speed * 0.7
  let time_horizontal := if avg_speed > 0 then horizontal_distance / avg_speed else 0
  let climb_penalty :=
    if time_horizontal > 0 then
      let required_climb_rate := |altitude_change| / time_horizontal
      if altitude_change > 0 then
        if required_climb_rate > cm.drone.climb_rate then
          10000 * (required_climb_rate / cm.drone.climb_rate - 1)
        else |altitude_change| * 2
      else if altitude_change < 0 then
        if required_climb_rate > cm.drone.descent_rate then
          10000 * (required_climb_rate / cm.drone.descent_rate - 1)
        else |altitude_change| * 1.2
      else 0
    else 0
  let turn_penalty :=
    if horizontal_distance > 0 then
      let min_turn_distance := cm.drone.turn_radius * Real.pi / 2
      if horizontal_distance < min_turn_distance then
        (min_turn_distance - horizontal_distance) * 0.1
      else 0
    else 0
  let heading := calculate_heading lat1 lon1 lat2 lon2
  let mid_lat := (lat1 + lat2) / 2
  let mid_lon := (lon1 + lon2) / 2
  let avg_altitude := (alt1 + alt2) / 2
  let wtriple :=
    match cm.get_weather_for_point mid_lat mid_lon with
    | some w =>
      let effective_wind := w.get_effective_wind_speed heading avg_altitude
      let eff := max (0.1 * cm.drone.max_speed)
        (min (cm.drone.max_speed * 1.2) (cm.drone.max_speed - effective_wind * 0.5))
      let wind_effect_ratio := effective_wind / max cm.drone.max_speed 1
      let energy_multiplier := 1 + wind_effect_ratio * 0.3
      let p0 := if effective_wind > 5 then effective_wind * 10 else 0
      let p1 := p0 + (if w.precipitation > 0 then w.precipitation * 50 else 0)
      let p2 := p1 + (if w.cloud_cover > 80 then (w.cloud_cover - 80) * 2 else 0)
      (p2, energy_multiplier, eff)
    | none => (0, 1, cm.drone.max_speed)
  let weather_penalty := wtriple.1
  let energy_multiplier := wtriple.2.1
  let effective_max_speed := wtriple.2.2
  let acceleration := cm.drone.max_speed / 5
  let deceleration := cm.drone.max_speed / 5
  let total_time :=
    if horizontal_distance > 0 then
      let accel_time := if acceleration > 0 then
        max 0 ((effective_max_speed - current_speed) / acceleration) else 0
      let accel_distance := current_speed * accel_time +
        1/2 * acceleration * accel_time ^ 2
      let decel_time := if deceleration > 0 then effective_max_speed / deceleration else 0
      let decel_distance := effective_max_speed * decel_time -
        1/2 * deceleration * decel_time ^ 2
      let cruise_distance := max 0 (horizontal_distance - accel_distance - decel_distance)
      let cruise_time := if effective_max_speed > 0 then
        cruise_distance / effective_max_speed else 0
      accel_time + cruise_time + decel_time
    else 0
  let base_energy_cost := cm.drone.estimate_energy_consumption
    horizontal_distance (alt2 - alt1)
  let speed_factor := (effective_max_speed / cm.drone.max_speed) ^ 2
  let speed_energy_multiplier := 1 + 0.5 * (speed_factor - 1)
  let adjusted_energy_cost := base_energy_cost * energy_multiplier * speed_energy_multiplier
  distance + climb_penalty + turn_penalty + total_time * 10 +
    adjusted_energy_cost / 100 * distance * 0.1 + weather_penalty

/-- Segment test against the no-fly zones, the final stage of
CostModel.is_valid_edge: a zone rejects the edge when its 2D geometry
intersects the 2D segment and the altitude intervals overlap. -/
def zone_segment_check (cm : CostModelM)
    (lat1 lon1 alt1 lat2 lon2 alt2 : ℝ) : Bool × Option String :=
  match cm.constraints.no_fly_zones.find? (fun z =>
    z.geomIntersectsSeg (lon1, lat1) (lon2, lat2) &&
    decide (z.min_altitude ≤ max alt1 alt2) &&
    decide (min alt1 alt2 ≤ z.max_altitude)) with
  | some z => (false, some ("Edge intersects no-fly zone: " ++ z.name.getD "unnamed"))
  | none => (true, none)

/-- Edge feasibility, from CostModel.is_valid_edge: endpoint constraint
checks (ground endpoints skip the minimum-altitude check), midpoint weather
safety, then segment-zone intersection. -/
def is_valid_edge (cm : CostModelM) (lat1 lon1 alt1 lat2 lon2 alt2 : ℝ)
    (is_start_ground is_end_ground : Bool) : Bool × Option String :=
  let r1 := cm.constraints.check_point lat1 lon1 alt1 is_start_ground
  if r1.1 = false then (false, some ("Start point: " ++ r1.2.getD ""))
  else
    let r2 := cm.constraints.check_point lat2 lon2 alt2 is_end_ground
    if r2.1 = false then (false, some ("End point: " ++ r2.2.getD ""))
    else
      let mid_lat := (lat1 + lat2) / 2
      let mid_lon := (lon1 + lon2) / 2
      match cm.get_weather_for_point mid_lat mid_lon with
      | some w =>
        if w.is_safe_for_flight = false then (false, some "Weather conditions unsafe")
        else cm.zone_segment_check lat1 lon1 alt1 lat2 lon2 alt2
      | none => cm.zone_segment_check lat1 lon1 alt1 lat2 lon2 alt2

end CostModelM

/-- Node payload of the navigation graph, from NavigationGraph.add_node. -/
structure NavNode where
  latitude : ℝ
  longitude : ℝ
  altitude : ℝ
  waypoint_type : String := "target"

/-- Navigation graph, from navigation_graph.py: named nodes, undirected
edges carrying the cached build-time weight, and an optional cost model for
inertia-aware recomputation. -/
structure NavigationGraph where
  nodes : List (String × NavNode)
  edges : List (String × String × ℝ)
  cost_model : Option CostModelM := none

namespace NavigationGraph

/-- Node position as the (lon, lat, alt) pos attribute. Looking up a missing
node raises KeyError in the source; no embedded result exercises that case
and the total rendering returns the default pos (0, 0, 0). -/
def get_node_position (g : NavigationGraph) (node_id : String) : ℝ × ℝ × ℝ :=
  match g.nodes.find? (fun kv => kv.1 == node_id) with
  | some kv => (kv.2.longitude, kv.2.latitude, kv.2.altitude)
  | none => (0, 0, 0)

/-- Node existence, from NavigationGraph.has_node. -/
def has_node (g : NavigationGraph) (node_id : String) : Bool :=
  g.nodes.any (fun kv => kv.1 == node_id)

/-- Undirected edge existence, from NavigationGraph.has_edge. -/
def has_edge (g : NavigationGraph) (node1 node2 : String) : Bool :=
  g.edges.any (fun e => (e.1 == node1 && e.2.1 == node2) ||
    (e.1 == node2 && e.2.1 == node1))

/-- Neighbors of a node in edge insertion order, as networkx reports them
for a graph populated through add_edge. -/
def get_neighbors (g : NavigationGraph) (node_id : String) : List String :=
  g.edges.filterMap (fun e =>
    if e.1 == node_id then some e.2.1
    else if e.2.1 == node_id then some e.1 else none)

/-- Cached weight stored by add_edge; the source falls back to 1.0 if the
weight attribute is absent, which cannot happen for edges added through
add_edge. -/
def cached_weight (g : NavigationGraph) (node1 node2 : String) : ℝ :=
  match g.edges.find? (fun e => (e.1 == node1 && e.2.1 == node2) ||
      (e.1 == node2 && e.2.1 == node1)) with
  | some e => e.2.2
  | none => 1

/-- Edge weight query, from NavigationGraph.get_edge_weight: infinity when
the edge is absent; the dynamically recomputed cost when a cost model is
attached and the current speed is positive; the cached weight otherwise. -/
def get_edge_weight (g : NavigationGraph) (node1 node2 : String)
    (current_speed : ℝ) : WithTop ℝ :=
  if g.has_edge node1 node2 = false then ⊤
  else
    match g.cost_model with
    | some cm =>
      if current_speed > 0 then
        let pos1 := g.get_node_position node1
        let pos2 := g.get_node_position node2
        ↑(cm.calculate_cost pos1.2.1 pos1.1 pos1.2.2 pos2.2.1 pos2.1 pos2.2.2
          current_speed)
      else ↑(g.cached_weight node1 node2)
    | none => ↑(g.cached_weight node1 node2)

end NavigationGraph

/-- C10: get_edge_weight is total over its real-valued embedding (it is a
function, so it raises nothing): absent edges give infinity for every
current speed; existing edges give the cached build-time weight when the
speed is zero or no cost model is attached; only with a cost model attached
and a positive speed is the cost recomputed through the cost model. -/
theorem C10_get_edge_weight_cases (g : NavigationGraph) (u v : String) (s : ℝ) :
    (g.has_edge u v = false → g.get_edge_weight u v s = ⊤) ∧
    (g.has_edge u v = true → (s = 0 ∨ g.cost_model = none) →
      g.get_edge_weight u v s = ↑(g.cached_weight u v)) ∧
    (∀ cm, g.has_edge u v = true → g.cost_model = some cm → s > 0 →
      g.get_edge_weight u v s =
        ↑(cm.calculate_cost (g.get_node_position u).2.1 (g.get_node_position u).1
          (g.get_node_position u).2.2 (g.get_node_position v).2.1
          (g.get_node_position v).1 (g.get_node_position v).2.2 s)) := by
  refine ⟨?_, ?_, ?_⟩
  · intro h
    unfold NavigationGraph.get_edge_weight
    rw [if_pos h]
  · intro h hs
    rcases hcm : g.cost_model with _ | cm
    · simp [NavigationGraph.get_edge_weight, h, hcm]
    · rcases hs with hs | hs
      · subst hs
        simp [NavigationGraph.get_edge_weight, h, hcm]
      · rw [hcm] at hs
        cases hs
  · intro cm h hcm hs
    simp [NavigationGraph.get_edge_weight, h, hcm, if_pos hs]

/-- Two-node graph without a cost model, the C10 witness input. -/
def gC10 : NavigationGraph :=
  { nodes := [("a", { latitude := 0, longitude := 0, altitude := 10 }),
              ("b", { latitude := 0, longitude := 0, altitude := 20 })],
    edges := [("a", "b", 5)] }

/-- C10 witness: the theorem applied to the concrete graph, covering both
the missing-edge and the cached-weight conclusions. -/
theorem C10_witness :
    gC10.get_edge_weight "a" "c" 3 = ⊤ ∧
    gC10.get_edge_weight "a" "b" 0 = ↑(gC10.cached_weight "a" "b") := by
  constructor
  · exact (C10_get_edge_weight_cases gC10 "a" "c" 3).1 (by rfl)
  · exact (C10_get_edge_weight_cases gC10 "a" "b" 0).2.1 (by rfl) (Or.inl rfl)

/-- Approximate 3D distance between (lon, lat, alt) positions, from
ThetaStar.euclidean_distance_3d: flat-earth conversion with the longitude
scaled by the absolute cosine of the first latitude. -/
def euclidean_distance_3d (pos1 pos2 : ℝ × ℝ × ℝ) : ℝ :=
  let lat1 := pos1.2.1
  let lat2 := pos2.2.1
  let lat_m := (lat2 - lat1) * 111320
  let lon_m := (pos2.1 - pos1.1) * 111320 * |Real.cos (radians lat1)|
  let alt_m := pos2.2.2 - pos1.2.2
  Real.sqrt (lat_m ^ 2 + lon_m ^ 2 + alt_m ^ 2)

/-- Line-of-sight predicate, from ThetaStar.line_of_sight: always true under
100 m, always false from 5 km, otherwise decided by the feasibility check of
the attached cost model (vacuously true when no cost model is attached). -/
def theta_line_of_sight (g : NavigationGraph) (node1 node2 : String) : Bool :=
  let pos1 := g.get_node_position node1
  let pos2 := g.get_node_position node2
  let distance := euclidean_distance_3d pos1 pos2
  if distance < 100 then true
  else if distance ≥ 5000 then false
  else
    match g.cost_model with
    | some cm =>
      (cm.is_valid_edge pos1.2.1 pos1.1 pos1.2.2 pos2.2.1 pos2.1 pos2.2.2
        false false).1
    | none => true

/-- C6 (amended): line of sight holds between two nodes exactly when the
approximate 3D distance is under 100 m, or it is under 5 km and either no
cost model is attached or the cost model feasibility check accepts the
segment. In particular a segment rejected by the feasibility check is still
granted line of sight whenever the nodes are within 100 m, the distance
compared is the 3D flat-earth approximation rather than the horizontal
distance, and exactly 5 km is excluded. -/
theorem C6_line_of_sight_iff (g : NavigationGraph) (n1 n2 : String) :
    theta_line_of_sight g n1 n2 = true ↔
      (euclidean_distance_3d (g.get_node_position n1) (g.get_node_position n2) < 100 ∨
       (euclidean_distance_3d (g.get_node_position n1) (g.get_node_position n2) < 5000 ∧
        (g.cost_model = none ∨
         ∃ cm, g.cost_model = some cm ∧
           (cm.is_valid_edge (g.get_node_position n1).2.1 (g.get_node_position n1).1
             (g.get_node_position n1).2.2 (g.get_node_position n2).2.1
             (g.get_node_position n2).1 (g.get_node_position n2).2.2
             false false).1 = true))) := by
  unfold theta_line_of_sight
  by_cases h100 : euclidean_distance_3d (g.get_node_position n1)
      (g.get_node_position n2) < 100
  · rw [if_pos h100]
    simp [h100]
  · rw [if_neg h100]
    by_cases h5000 : euclidean_distance_3d (g.get_node_position n1)
        (g.get_node_position n2) ≥ 5000
    · rw [if_pos h5000]
      constructor
      · intro hfalse
        cases hfalse
      · intro hdisj
        rcases hdisj with hlt | ⟨hlt, _⟩
        · exact absurd hlt h100
        · exact absurd hlt (not_lt.mpr h5000)
    · rw [if_neg h5000]
      have hlt : euclidean_distance_3d (g.get_node_position n1)
          (g.get_node_position n2) < 5000 := lt_of_not_le h5000
      rcases hcm : g.cost_model with _ | cm
      · constructor
        · intro _
          exact Or.inr ⟨hlt, Or.inl rfl⟩
        · intro _
          rfl
      · constructor
        · intro hval
          exact Or.inr ⟨hlt, Or.inr ⟨cm, rfl, hval⟩⟩
        · rintro (hc | ⟨_, hnone | ⟨cm2, hcm2, hval⟩⟩)
          · exact absurd hc h100
          · cases hnone
          · cases hcm2
            exact hval

/-- Cost model of the C6 counterexample: a mission maximum altitude of
100 m and no zones or weather. -/
def cmC6 : CostModelM :=
  { drone := droneC9, constraints := { max_altitude := some 100 } }

/-- Graph of the C6 counterexample: two nodes at the same 2D point, 60 m
apart vertically, the upper one above the mission maximum altitude. -/
def gC6 : NavigationGraph :=
  { nodes := [("a", { latitude := 0, longitude := 0, altitude := 100 }),
              ("b", { latitude := 0, longitude := 0, altitude := 160 })],
    edges := [],
    cost_model := some cmC6 }

theorem euclid3d_C6 :
    euclidean_distance_3d ((0:ℝ), (0:ℝ), (100:ℝ)) ((0:ℝ), (0:ℝ), (160:ℝ)) = 60 := by
  unfold euclidean_distance_3d
  norm_num
  rw [show (3600:ℝ) = 60 ^ 2 by norm_num, Real.sqrt_sq (by norm_num : (0:ℝ) ≤ 60)]

/-- C6 counterexample: the two nodes are 60 m apart, so the line-of-sight
predicate accepts them through its under-100 m early exit without ever
consulting the feasibility check, although the feasibility check rejects
the segment (the upper endpoint violates the maximum altitude). The claimed
equivalence with feasibility-and-5 km therefore fails. -/
theorem C6_counterexample :
    theta_line_of_sight gC6 "a" "b" = true ∧
    (cmC6.is_valid_edge 0 0 100 0 0 160 false false).1 = false := by
  constructor
  · unfold theta_line_of_sight
    show (if euclidean_distance_3d ((0:ℝ), (0:ℝ), (100:ℝ)) ((0:ℝ), (0:ℝ), (160:ℝ))
          < 100 then true
      else if euclidean_distance_3d ((0:ℝ), (0:ℝ), (100:ℝ)) ((0:ℝ), (0:ℝ), (160:ℝ))
          ≥ 5000 then false
      else match gC6.cost_model with
        | some cm => (cm.is_valid_edge 0 0 100 0 0 160 false false).1
        | none => true) = true
    rw [euclid3d_C6]
    rw [if_pos (by norm_num : (60:ℝ) < 100)]
  · have hcp2 : cmC6.constraints.check_point 0 0 160 false =
        (false, some "Altitude is above maximum") := by
      unfold MissionConstraints.check_point cmC6
      norm_num
    have hcp1 : cmC6.constraints.check_point 0 0 100 false = (true, none) := by
      unfold MissionConstraints.check_point cmC6
      norm_num
    unfold CostModelM.is_valid_edge
    rw [hcp1]
    norm_num
    rw [hcp2]
    norm_num

/-- Mission record, from mission.py; post-init guarantees a constraints
object, so the field is total here. The finish options read by the planner
are absent from the Mission dataclass in the source (see C2). -/
structure Mission where
  name : String
  drones : List Drone := []
  target_points : List Waypoint := []
  depot : Option Waypoint := none
  constraints : MissionConstraints := {}

/-- Pre-check of the orchestrator, from
MissionOrchestrator.check_target_points_against_zones: depot first, then
each target against each zone, with the source message texts. -/
def check_target_points_against_zones (m : Mission) : List (String × Option ℕ) :=
  if m.constraints.no_fly_zones = [] then []
  else
    (match m.depot with
     | some d => (m.constraints.no_fly_zones.filter (fun z =>
         z.contains (d.longitude, d.latitude) d.altitude)).map (fun z =>
         ("Depot is in no-fly zone: " ++ z.name.getD "unnamed", (none : Option ℕ)))
     | none => []) ++
    m.target_points.enum.flatMap (fun p =>
      (m.constraints.no_fly_zones.filter (fun z =>
        z.contains (p.2.longitude, p.2.latitude) p.2.altitude)).map (fun z =>
        ("Target point " ++ toString (p.1 + 1) ++ " (" ++ p.2.name.getD "Unnamed" ++
          ") is in no-fly zone: " ++ z.name.getD "unnamed", some p.1)))

/-- Violations computed by plan_mission before planning: the source guards
the pre-check behind the truthiness of the zone list. -/
def precheck_violations (m : Mission) : List (String × Option ℕ) :=
  if m.constraints.no_fly_zones ≠ [] then check_target_points_against_zones m else []

/-- Aggregated pre-check error string of plan_mission. -/
def precheck_error_message (violations : List (String × Option ℕ)) : String :=
  "Cannot plan route: Target points are in no-fly zones:\n" ++
    String.intercalate "\n" (violations.map (fun v => "- " ++ v.1))

/-- Python exception surfaced by the embedded call mechanics. -/
inductive PyError where
  | typeError (msg : String)
deriving DecidableEq

/-- Keyword parameters accepted by GraphBuilder.__init__ beyond self, from
its signature (drone, constraints, weather_data). -/
def graphBuilderKeywordParams : List String := ["drone", "constraints", "weather_data"]

/-- Python keyword-call semantics for GraphBuilder.__init__: an unexpected
keyword argument raises TypeError. -/
def callGraphBuilder (kwargs : List String) : Except PyError Unit :=
  match kwargs.find? (fun k => ! graphBuilderKeywordParams.contains k) with
  | some bad => .error (.typeError
      ("GraphBuilder.__init__ got an unexpected keyword argument " ++ bad))
  | none => .ok ()

/-- RoutePlanner.plan_single_drone_route, embedded to its decisive prefix:
the empty-target early return, then the GraphBuilder construction that
passes the keyword argument weather_manager, which the GraphBuilder
signature does not accept. The rest argument stands for the remainder of
the method (graph build, order optimization, pathfinding, landing
synthesis), which is unreachable because that call raises. -/
def plan_single_drone_route (rest : Mission → Except PyError (Option Route))
    (m : Mission) : Except PyError (Option Route) :=
  if m.target_points = [] then .ok none
  else
    match callGraphBuilder ["weather_manager"] with
    | .error e => .error e
    | .ok _ => rest m

/-- Result of one plan_mission call: either a raised exception or the
(routes, error message) pair, together with how many per-aircraft planner
invocations were made. -/
structure PlanOutcome where
  result : Except PyError (List (String × Route) × Option String)
  plannerCalls : ℕ

/-- The no-route message of the single-drone branch of plan_mission. -/
def noRouteFoundMessage : String :=
  "No route found. Possible reasons:\n" ++
  "- Target points are unreachable\n" ++
  "- No-fly zones block all possible paths\n" ++
  "- Constraints are too restrictive\n" ++
  "- Try adjusting target points or no-fly zones"

/-- MissionOrchestrator.plan_mission, embedded to the depth the claims
exercise: the no-drones guard, the zone pre-check with its early return,
and the single-drone branch through plan_single_drone_route. successCont
stands for the post-processing of a successfully planned single route
(optimization, validation, storing) and multiCont for the whole multi-drone
branch (VRP assignment and per-aircraft planning); both are reached only
after the pre-check passes. -/
def plan_mission (singleRest : Mission → Except PyError (Option Route))
    (successCont : Route → PlanOutcome) (multiCont : PlanOutcome)
    (m : Mission) : PlanOutcome :=
  if m.drones.length = 0 then
    { result := .ok ([], some "No drones configured in mission"), plannerCalls := 0 }
  else if precheck_violations m ≠ [] then
    { result := .ok ([], some (precheck_error_message (precheck_violations m))),
      plannerCalls := 0 }
  else if m.drones.length = 1 then
    match plan_single_drone_route singleRest m with
    | .error e => { result := .error e, plannerCalls := 1 }
    | .ok none => { result := .ok ([], some noRouteFoundMessage), plannerCalls := 1 }
    | .ok (some r) => successCont r
  else multiCont

/-- A waypoint lies in one of the zones (containment inclusive of the
boundary, altitude inside the band). -/
def inAnyZone (zones : List NoFlyZone) (wp : Waypoint) : Prop :=
  ∃ z ∈ zones, z.contains (wp.longitude, wp.latitude) wp.altitude = true

theorem exists_enumFrom_of_mem {α : Type} {l : List α} {x : α} (hx : x ∈ l) :
    ∀ n, ∃ p ∈ l.enumFrom n, p.2 = x := by
  induction l with
  | nil => cases hx
  | cons a t ih =>
    intro n
    rcases List.mem_cons.mp hx with h | h
    · exact ⟨(n, a), by rw [List.enumFrom_cons]; exact List.mem_cons_self _ _,
        h.symm ▸ rfl⟩
    · obtain ⟨p, hp, hpx⟩ := ih h (n + 1)
      exact ⟨p, by rw [List.enumFrom_cons]; exact List.mem_cons_of_mem _ hp, hpx⟩

theorem exists_enum_of_mem {α : Type} {l : List α} {x : α} (hx : x ∈ l) :
    ∃ p ∈ l.enum, p.2 = x :=
  exists_enumFrom_of_mem hx 0

/-- C1: when the depot or any target lies inside a no-fly zone (and the
fleet is non-empty, as the data model requires), plan_mission returns the
empty route map with the aggregated human-readable message built from the
per-point violation messages, without invoking any per-aircraft planner:
the outcome is the same for every planner continuation and every
multi-drone continuation, and the planner call count is zero. -/
theorem C1_precheck_aborts (singleRest : Mission → Except PyError (Option Route))
    (successCont : Route → PlanOutcome) (multiCont : PlanOutcome) (m : Mission)
    (hdrones : m.drones ≠ [])
    (hviol : (∃ d, m.depot = some d ∧ inAnyZone m.constraints.no_fly_zones d) ∨
             (∃ t ∈ m.target_points, inAnyZone m.constraints.no_fly_zones t)) :
    plan_mission singleRest successCont multiCont m =
      { result := .ok ([], some (precheck_error_message (precheck_violations m))),
        plannerCalls := 0 } ∧
    precheck_violations m ≠ [] := by
  have hzones : m.constraints.no_fly_zones ≠ [] := by
    rcases hviol with ⟨d, _, z, hz, _⟩ | ⟨t, _, z, hz, _⟩ <;>
      exact fun hnil => by simp [hnil] at hz
  have hcheckne : check_target_points_against_zones m ≠ [] := by
    unfold check_target_points_against_zones
    rw [if_neg hzones]
    rcases hviol with ⟨d, hd, z, hz, hcont⟩ | ⟨t, ht, z, hz, hcont⟩
    · intro hcontra
      obtain ⟨h1, _⟩ := List.append_eq_nil.mp hcontra
      rw [hd] at h1
      have hfz : z ∈ m.constraints.no_fly_zones.filter (fun z =>
          z.contains (d.longitude, d.latitude) d.altitude) :=
        List.mem_filter.mpr ⟨hz, hcont⟩
      rw [List.map_eq_nil_iff] at h1
      rw [h1] at hfz
      cases hfz
    · intro hcontra
      obtain ⟨_, h2⟩ := List.append_eq_nil.mp hcontra
      obtain ⟨p, hp, hpt⟩ := exists_enum_of_mem ht
      have hfz : z ∈ m.constraints.no_fly_zones.filter (fun z =>
          z.contains (p.2.longitude, p.2.latitude) p.2.altitude) := by
        rw [hpt]
        exact List.mem_filter.mpr ⟨hz, hcont⟩
      have hcomp := List.flatMap_eq_nil_iff.mp h2 p hp
      rw [List.map_eq_nil_iff] at hcomp
      rw [hcomp] at hfz
      cases hfz
  have hpv : precheck_violations m ≠ [] := by
    unfold precheck_violations
    rw [if_pos hzones]
    exact hcheckne
  refine ⟨?_, hpv⟩
  unfold plan_mission
  rw [if_neg (fun h => hdrones (List.length_eq_zero.mp h))]
  rw [if_pos hpv]

/-- Mission of the C1 witness: one drone, the depot inside the everywhere
zone. -/
def missionC1 : Mission :=
  { name := "m", drones := [droneC9], depot := some wpDepotC9,
    constraints := zoneConstraintsC4 }

/-- C1 witness: the theorem applied to the concrete mission with the depot
inside a zone, hypotheses discharged, for one arbitrary choice of the
continuations. -/
theorem C1_witness :
    plan_mission (fun _ => .ok none)
      (fun _ => { result := .ok ([], none), plannerCalls := 99 })
      { result := .ok ([], none), plannerCalls := 99 } missionC1 =
      { result := .ok ([],
          some (precheck_error_message (precheck_violations missionC1))),
        plannerCalls := 0 } := by
  have h := C1_precheck_aborts (fun _ => .ok none)
    (fun _ => { result := .ok ([], none), plannerCalls := 99 })
    { result := .ok ([], none), plannerCalls := 99 } missionC1
    (by simp [missionC1])
    (Or.inl ⟨wpDepotC9, rfl, everywhereZone, by simp [missionC1, zoneConstraintsC4],
      everywhereZone_contains wpDepotC9 (by norm_num [wpDepotC9])
        (by norm_num [wpDepotC9])⟩)
  exact h.1

/-- The TypeError message produced by the unexpected keyword argument. -/
def gbTypeErrorMsg : String :=
  "GraphBuilder.__init__ got an unexpected keyword argument weather_manager"

theorem callGraphBuilder_weather_manager :
    callGraphBuilder ["weather_manager"] = .error (.typeError gbTypeErrorMsg) := rfl

/-- C2: for a mission with a single aircraft and a non-empty target list
that passes the pre-check, plan_mission raises: the single-aircraft path
constructs GraphBuilder with the keyword argument weather_manager, which
GraphBuilder does not accept, so a TypeError propagates out of plan_mission
instead of a (routes, error) pair. This contradicts the claim that
plan_mission never raises. -/
theorem C2_single_drone_raises (singleRest : Mission → Except PyError (Option Route))
    (successCont : Route → PlanOutcome) (multiCont : PlanOutcome) (m : Mission)
    (h1 : m.drones.length = 1) (ht : m.target_points ≠ [])
    (hok : precheck_violations m = []) :
    plan_mission singleRest successCont multiCont m =
      { result := .error (.typeError gbTypeErrorMsg), plannerCalls := 1 } := by
  unfold plan_mission
  rw [if_neg (by rw [h1]; norm_num)]
  rw [if_neg (by simp [hok])]
  rw [if_pos h1]
  unfold plan_single_drone_route
  rw [if_neg ht, callGraphBuilder_weather_manager]

/-- Mission of the C2 witness: one drone, one target, no zones. -/
def missionC2 : Mission :=
  { name := "m", drones := [droneC9], target_points := [wpC9] }

/-- C2 witness: the theorem applied to the concrete single-drone mission
with a non-empty target list. -/
theorem C2_witness :
    plan_mission (fun _ => .ok none)
      (fun _ => { result := .ok ([], none), plannerCalls := 99 })
      { result := .ok ([], none), plannerCalls := 99 } missionC2 =
      { result := .error (.typeError gbTypeErrorMsg), plannerCalls := 1 } := by
  apply C2_single_drone_raises
  · rfl
  · simp [missionC2]
  · simp [precheck_violations, missionC2]

/-- Distance matrix for the VRP, from VRPSolver.create_distance_matrix:
integer-meter haversine distances with the depot at index 0. The Python int
conversion truncates; distances are non-negative so floor coincides. -/
def create_distance_matrix (depot : Option Waypoint) (targets : List Waypoint) :
    List (List ℤ) :=
  let locations := (match depot with
    | some d => [(d.latitude, d.longitude)]
    | none => []) ++ targets.map (fun t => (t.latitude, t.longitude))
  locations.enum.map (fun pi => locations.enum.map (fun pj =>
    if pi.1 = pj.1 then 0
    else ⌊haversine_distance pi.2.1 pi.2.2 pj.2.1 pj.2.2⌋))

/-- Extraction of the per-vehicle routes of an OR-Tools solution, from the
solution-reading loop of VRPSolver.solve: vehicleRoutes lists, per vehicle
in fleet order, the matrix node indices visited between start and end; depot
nodes (index 0) are skipped and the rest shifted to target indices. The
OR-Tools solver itself is an external component; its output is passed in as
data. -/
def extract_assignments (drones : List Drone) (vehicleRoutes : List (List ℕ)) :
    List (String × List ℕ) :=
  (drones.zip vehicleRoutes).map (fun p =>
    (p.1.name, (p.2.filter (fun idx => decide (0 < idx))).map (fun idx => idx - 1)))

/-- Even redistribution loop of VRPSolver.solve (the fewer-targets-than-
drones branch): drone i receives the next per + (1 if i < rem) collected
indices. -/
def redistribute_go (all : List ℕ) (per rem : ℕ) :
    ℕ → ℕ → List Drone → List (String × List ℕ)
  | _, _, [] => []
  | i, idx, d :: rest =>
    (d.name, (all.drop idx).take (per + if i < rem then 1 else 0)) ::
      redistribute_go all per rem (i + 1) (idx + (per + if i < rem then 1 else 0)) rest

/-- VRPSolver.solve after the external solver produced a solution: extract
per-drone target indices, then redistribute evenly when there are fewer
targets than drones and some drone received none. -/
def vrp_solve (m : Mission) (vehicleRoutes : List (List ℕ)) :
    List (String × List ℕ) :=
  if m.target_points = [] ∨ m.drones = [] then []
  else
    if m.target_points.length < m.drones.length then
      if ((extract_assignments m.drones vehicleRoutes).filter
            (fun a => !a.2.isEmpty)).length < m.drones.length ∧
          0 < m.target_points.length then
        redistribute_go
          ((((extract_assignments m.drones vehicleRoutes).flatMap
              (fun a => a.2)).dedup).mergeSort
            (fun a b => decide (a ≤ b)))
          (((((extract_assignments m.drones vehicleRoutes).flatMap
              (fun a => a.2)).dedup).mergeSort
            (fun a b => decide (a ≤ b))).length / m.drones.length)
          (((((extract_assignments m.drones vehicleRoutes).flatMap
              (fun a => a.2)).dedup).mergeSort
            (fun a b => decide (a ≤ b))).length % m.drones.length)
          0 0 m.drones
      else extract_assignments m.drones vehicleRoutes
    else extract_assignments m.drones vehicleRoutes

/-- Greedy fallback of the VRP solver, from
VRPSolver.greedy_fallback_assignment: targets sorted by distance from the
depot (stable ascending, as the Python sort), then dealt round-robin over
the fleet; the list for drone i collects the sorted targets at positions
congruent to i modulo the fleet size, in order, exactly as the source dict
receives them. -/
def greedy_target_distances (m : Mission) : List (ℕ × ℝ) :=
  match m.depot with
  | some depot => m.target_points.enum.map (fun (p : ℕ × Waypoint) =>
      (p.1, haversine_distance depot.latitude depot.longitude
        p.2.latitude p.2.longitude))
  | none => []

def greedy_sorted (m : Mission) : List (ℕ × ℝ) :=
  (greedy_target_distances m).mergeSort
    (fun (a b : ℕ × ℝ) => decide (a.2 ≤ b.2))

def greedy_fallback_assignment (m : Mission) : List (String × List ℕ) :=
  if m.target_points = [] ∨ m.drones = [] then []
  else
    m.drones.enum.map (fun (dp : ℕ × Drone) =>
      (dp.2.name, ((greedy_sorted m).enum.filter (fun (sp : ℕ × (ℕ × ℝ)) =>
        decide (sp.1 % m.drones.length = dp.1))).map
          (fun (sp : ℕ × (ℕ × ℝ)) => sp.2.1)))

theorem flatMap_congr {α β : Type} {l : List α} {f g : α → List β}
    (h : ∀ a ∈ l, f a = g a) : l.flatMap f = l.flatMap g := by
  induction l with
  | nil => rfl
  | cons a t ih =>
    rw [List.flatMap_cons, List.flatMap_cons, h a (List.mem_cons_self a t),
      ih (fun x hx => h x (List.mem_cons_of_mem a hx))]

theorem flatMap_insert_single {β : Type} (x : β) (f : ℕ → List β) (i0 : ℕ) :
    ∀ (l : List ℕ), i0 ∈ l → l.Nodup →
      (l.flatMap (fun i => if i = i0 then x :: f i else f i)).Perm
        (x :: l.flatMap f) := by
  intro l
  induction l with
  | nil => intro h; cases h
  | cons a t ih =>
    intro hmem hnd
    rw [List.flatMap_cons, List.flatMap_cons]
    by_cases ha : a = i0
    · rw [if_pos ha]
      have hnotin : i0 ∉ t := by
        rw [← ha]
        exact (List.nodup_cons.mp hnd).1
      have ht : t.flatMap (fun i => if i = i0 then x :: f i else f i) =
          t.flatMap f := by
        apply flatMap_congr
        intro i hi
        rw [if_neg]
        intro hii
        exact hnotin (hii ▸ hi)
      rw [ht]
      exact List.Perm.refl _
    · rw [if_neg ha]
      have hm : i0 ∈ t := by
        rcases List.mem_cons.mp hmem with h | h
        · exact absurd h.symm ha
        · exact h
      have hp := ih hm (List.nodup_cons.mp hnd).2
      exact List.Perm.trans (List.Perm.append_left _ hp) List.perm_middle

theorem flatMap_filter_class_perm {β : Type} (c : β → ℕ) (k : ℕ) :
    ∀ (s : List β), (∀ y ∈ s, c y < k) →
      ((List.range k).flatMap (fun i =>
        s.filter (fun y => decide (c y = i)))).Perm s := by
  intro s
  induction s with
  | nil =>
    intro _
    have he : ((List.range k).flatMap (fun i =>
        ([] : List β).filter (fun y => decide (c y = i)))) = [] := by
      simp
    rw [he]
  | cons x t ih =>
    intro hb
    have hcx : c x < k := hb x (List.mem_cons_self x t)
    have hstep : ∀ i ∈ List.range k,
        (x :: t).filter (fun y => decide (c y = i)) =
          if i = c x then x :: t.filter (fun y => decide (c y = i))
          else t.filter (fun y => decide (c y = i)) := by
      intro i _
      rw [List.filter_cons]
      by_cases h : c x = i
      · rw [if_pos (by simp [h]), if_pos h.symm]
      · rw [if_neg (by simp [h]), if_neg (fun hh => h hh.symm)]
    rw [flatMap_congr hstep]
    refine List.Perm.trans
      (flatMap_insert_single x (fun i => t.filter (fun y => decide (c y = i)))
        (c x) (List.range k) (List.mem_range.mpr hcx) (List.nodup_range k)) ?_
    exact List.Perm.cons x (ih (fun y hy => hb y (List.mem_cons_of_mem x hy)))

/-- Total number of indices handed out by the redistribution loop to a run
of c drones starting at fleet position i. -/
def numSum (per rem : ℕ) : ℕ → ℕ → ℕ
  | _, 0 => 0
  | i, c + 1 => (per + if i < rem then 1 else 0) + numSum per rem (i + 1) c

theorem numSum_formula (per rem : ℕ) :
    ∀ c i, numSum per rem i c = c * per + (min (i + c) rem - min i rem) := by
  intro c
  induction c with
  | zero => intro i; simp [numSum]
  | succ c ih =>
    intro i
    rw [show numSum per rem i (c + 1) =
      (per + if i < rem then 1 else 0) + numSum per rem (i + 1) c from rfl,
      ih (i + 1)]
    have hmul : (c + 1) * per = c * per + per := by ring
    by_cases h : i < rem
    · rw [if_pos h, hmul]; omega
    · rw [if_neg h, hmul]; omega

theorem redistribute_go_keys (all : List ℕ) (per rem : ℕ) :
    ∀ (ds : List Drone) (i idx : ℕ),
      (redistribute_go all per rem i idx ds).map Prod.fst =
        ds.map Drone.name := by
  intro ds
  induction ds with
  | nil => intro i idx; rfl
  | cons d rest ih =>
    intro i idx
    rw [show redistribute_go all per rem i idx (d :: rest) =
      (d.name, (all.drop idx).take (per + if i < rem then 1 else 0)) ::
        redistribute_go all per rem (i + 1)
          (idx + (per + if i < rem then 1 else 0)) rest from rfl]
    rw [List.map_cons, List.map_cons, ih]

theorem redistribute_go_flatMap (all : List ℕ) (per rem : ℕ) :
    ∀ (ds : List Drone) (i idx : ℕ),
      (redistribute_go all per rem i idx ds).flatMap
          (fun a => a.2) =
        (all.drop idx).take (numSum per rem i ds.length) := by
  intro ds
  induction ds with
  | nil => intro i idx; rfl
  | cons d rest ih =>
    intro i idx
    rw [show redistribute_go all per rem i idx (d :: rest) =
      (d.name, (all.drop idx).take (per + if i < rem then 1 else 0)) ::
        redistribute_go all per rem (i + 1)
          (idx + (per + if i < rem then 1 else 0)) rest from rfl]
    rw [List.flatMap_cons, ih (i + 1) (idx + (per + if i < rem then 1 else 0))]
    rw [show (d :: rest).length = rest.length + 1 from rfl]
    rw [show numSum per rem i (rest.length + 1) =
      (per + if i < rem then 1 else 0) + numSum per rem (i + 1) rest.length
      from rfl]
    show (all.drop idx).take (per + if i < rem then 1 else 0) ++
        (all.drop (idx + (per + if i < rem then 1 else 0))).take
          (numSum per rem (i + 1) rest.length) =
      (all.drop idx).take ((per + if i < rem then 1 else 0) +
        numSum per rem (i + 1) rest.length)
    conv_rhs => rw [List.take_add]
    rw [List.drop_drop]

theorem extract_assignments_keys (drones : List Drone)
    (vr : List (List ℕ)) (hlen : vr.length = drones.length) :
    (extract_assignments drones vr).map Prod.fst = drones.map Drone.name := by
  unfold extract_assignments
  rw [List.map_map]
  rw [show (Prod.fst ∘ fun (p : Drone × List ℕ) =>
      (p.1.name,
        (p.2.filter (fun idx => decide (0 < idx))).map (fun idx => idx - 1))) =
    (Drone.name ∘ Prod.fst) from rfl]
  rw [← List.map_map]
  rw [List.map_fst_zip drones vr (by omega)]

theorem flatMap_comp_snd {α β γ : Type} (g : β → List γ) :
    ∀ (l₁ : List α) (l₂ : List β), l₂.length ≤ l₁.length →
      (l₁.zip l₂).flatMap (fun p => g p.2) = l₂.flatMap g := by
  intro l₁
  induction l₁ with
  | nil =>
    intro l₂ h
    have h2 : l₂ = [] := List.eq_nil_of_length_eq_zero (Nat.le_zero.mp h)
    rw [h2]
    rfl
  | cons a t ih =>
    intro l₂ h
    cases l₂ with
    | nil => rfl
    | cons b s =>
      rw [List.zip_cons_cons, List.flatMap_cons, List.flatMap_cons,
        ih s (by simpa using h)]

theorem extract_assignments_flatMap (drones : List Drone)
    (vr : List (List ℕ)) (n : ℕ) (hlen : vr.length = drones.length)
    (hsol : (vr.flatMap id).Perm
      ((List.range n).map (fun x => x + 1))) :
    ((extract_assignments drones vr).flatMap (fun a => a.2)).Perm
      (List.range n) := by
  have hpos : ∀ r ∈ vr, ∀ x ∈ r, 0 < x := by
    intro r hr x hx
    have hxmem : x ∈ vr.flatMap id := List.mem_flatMap.mpr ⟨r, hr, hx⟩
    have hx2 := hsol.mem_iff.mp hxmem
    rcases List.mem_map.mp hx2 with ⟨y, _, hy⟩
    omega
  unfold extract_assignments
  rw [List.flatMap_map]
  have hfilter : ((drones.zip vr).flatMap (fun p =>
      ((fun (q : Drone × List ℕ) =>
        (q.1.name,
          (q.2.filter (fun idx => decide (0 < idx))).map
            (fun idx => idx - 1))) p).2)) =
      ((drones.zip vr).flatMap (fun p => p.2.map (fun idx => idx - 1))) := by
    apply flatMap_congr
    intro p hp
    show (p.2.filter (fun idx => decide (0 < idx))).map (fun idx => idx - 1) =
      p.2.map (fun idx => idx - 1)
    have hself : p.2.filter (fun idx => decide (0 < idx)) = p.2 := by
      rw [List.filter_eq_self]
      intro x hx
      exact decide_eq_true (hpos p.2 (List.of_mem_zip hp).2 x hx)
    rw [hself]
  rw [hfilter]
  have hsnd : ((drones.zip vr).flatMap
      (fun p => p.2.map (fun idx => idx - 1))) =
      (vr.flatMap (fun r => r.map (fun idx => idx - 1))) :=
    flatMap_comp_snd (fun r => r.map (fun idx => idx - 1)) drones vr (by omega)
  rw [hsnd]
  have hmapflat : (vr.flatMap (fun r => r.map (fun idx => idx - 1))) =
      ((vr.flatMap id).map (fun idx => idx - 1)) := by
    rw [List.map_flatMap]
    rfl
  rw [hmapflat]
  have hfinal : (((List.range n).map (fun x => x + 1)).map
      (fun idx => idx - 1)) = List.range n := by
    rw [List.map_map]
    have hco : ((fun idx => idx - 1) ∘ fun x => x + 1) = (id : ℕ → ℕ) := by
      funext x
      simp
    rw [hco, List.map_id]
  exact hfinal ▸ hsol.map (fun idx => idx - 1)

theorem flatMap_comp_fst_enum {α γ : Type} (g : ℕ → List γ) (l : List α) :
    l.enum.flatMap (fun p => g p.1) = (List.range l.length).flatMap g := by
  have h := List.flatMap_map Prod.fst g l.enum
  rw [List.enum_map_fst] at h
  exact h.symm

theorem greedy_fallback_partition (m : Mission) (depot : Waypoint)
    (hdep : m.depot = some depot) (htar : m.target_points ≠ [])
    (hdr : m.drones ≠ []) :
    (greedy_fallback_assignment m).map Prod.fst = m.drones.map Drone.name ∧
      ((greedy_fallback_assignment m).flatMap (fun a => a.2)).Perm
        (List.range m.target_points.length) := by
  have hk : 0 < m.drones.length := List.length_pos.mpr hdr
  have hres : greedy_fallback_assignment m =
      m.drones.enum.map (fun (dp : ℕ × Drone) =>
        (dp.2.name, ((greedy_sorted m).enum.filter (fun (sp : ℕ × (ℕ × ℝ)) =>
          decide (sp.1 % m.drones.length = dp.1))).map
            (fun (sp : ℕ × (ℕ × ℝ)) => sp.2.1))) := by
    unfold greedy_fallback_assignment
    rw [if_neg (fun hc => hc.elim htar hdr)]
  have h4 : (greedy_target_distances m).map Prod.fst =
      List.range m.target_points.length := by
    unfold greedy_target_distances
    rw [hdep]
    show (m.target_points.enum.map (fun (p : ℕ × Waypoint) =>
        (p.1, haversine_distance depot.latitude depot.longitude
          p.2.latitude p.2.longitude))).map Prod.fst =
      List.range m.target_points.length
    rw [List.map_map]
    rw [show (Prod.fst ∘ fun (p : ℕ × Waypoint) =>
        (p.1, haversine_distance depot.latitude depot.longitude
          p.2.latitude p.2.longitude)) = (Prod.fst : ℕ × Waypoint → ℕ)
      from rfl]
    rw [List.enum_map_fst]
  constructor
  · rw [hres, List.map_map]
    rw [show (Prod.fst ∘ fun (dp : ℕ × Drone) =>
        (dp.2.name, ((greedy_sorted m).enum.filter (fun (sp : ℕ × (ℕ × ℝ)) =>
          decide (sp.1 % m.drones.length = dp.1))).map
            (fun (sp : ℕ × (ℕ × ℝ)) => sp.2.1))) =
      (Drone.name ∘ Prod.snd) from rfl]
    rw [← List.map_map, List.enum_map_snd]
  · have hstep1 : (greedy_fallback_assignment m).flatMap (fun a => a.2) =
        (List.range m.drones.length).flatMap
          (fun i => ((greedy_sorted m).enum.filter
            (fun (sp : ℕ × (ℕ × ℝ)) =>
              decide (sp.1 % m.drones.length = i))).map
            (fun (sp : ℕ × (ℕ × ℝ)) => sp.2.1)) := by
      rw [hres, List.flatMap_map]
      exact flatMap_comp_fst_enum
        (fun i => ((greedy_sorted m).enum.filter
          (fun (sp : ℕ × (ℕ × ℝ)) =>
            decide (sp.1 % m.drones.length = i))).map
          (fun (sp : ℕ × (ℕ × ℝ)) => sp.2.1)) m.drones
    have hstep3 : ((List.range m.drones.length).flatMap
        (fun i => ((greedy_sorted m).enum.filter
          (fun (sp : ℕ × (ℕ × ℝ)) =>
            decide (sp.1 % m.drones.length = i))).map
          (fun (sp : ℕ × (ℕ × ℝ)) => sp.2.1))) =
        (((List.range m.drones.length).flatMap
          (fun i => (greedy_sorted m).enum.filter
            (fun (sp : ℕ × (ℕ × ℝ)) =>
              decide (sp.1 % m.drones.length = i)))).map
          (fun (sp : ℕ × (ℕ × ℝ)) => sp.2.1)) := by
      rw [List.map_flatMap]
    have hstep2 : (((List.range m.drones.length).flatMap
        (fun i => (greedy_sorted m).enum.filter
          (fun (sp : ℕ × (ℕ × ℝ)) =>
            decide (sp.1 % m.drones.length = i))))).Perm
        ((greedy_sorted m).enum) := by
      apply flatMap_filter_class_perm
        (fun (sp : ℕ × (ℕ × ℝ)) => sp.1 % m.drones.length)
      intro y _
      exact Nat.mod_lt _ hk
    have h2 : ((greedy_sorted m).enum.map
        (fun (sp : ℕ × (ℕ × ℝ)) => sp.2.1)) =
        (greedy_sorted m).map Prod.fst := by
      rw [show (fun (sp : ℕ × (ℕ × ℝ)) => sp.2.1) =
        ((Prod.fst : ℕ × ℝ → ℕ) ∘ (Prod.snd : ℕ × (ℕ × ℝ) → ℕ × ℝ))
        from rfl]
      rw [← List.map_map, List.enum_map_snd]
    have h3 : ((greedy_sorted m).map Prod.fst).Perm
        ((greedy_target_distances m).map Prod.fst) :=
      (List.mergeSort_perm (greedy_target_distances m)
        (fun (a b : ℕ × ℝ) => decide (a.2 ≤ b.2))).map Prod.fst
    rw [hstep1, hstep3]
    refine (hstep2.map (fun (sp : ℕ × (ℕ × ℝ)) => sp.2.1)).trans ?_
    rw [h2]
    refine h3.trans ?_
    rw [h4]

theorem vrp_solve_partition (m : Mission) (vr : List (List ℕ))
    (htar : m.target_points ≠ []) (hdr : m.drones ≠ [])
    (hlen : vr.length = m.drones.length)
    (hsol : (vr.flatMap id).Perm
      ((List.range m.target_points.length).map (fun x => x + 1))) :
    (vrp_solve m vr).map Prod.fst = m.drones.map Drone.name ∧
      ((vrp_solve m vr).flatMap (fun a => a.2)).Perm
        (List.range m.target_points.length) := by
  have hk : 0 < m.drones.length := List.length_pos.mpr hdr
  have hkeys := extract_assignments_keys m.drones vr hlen
  have hflat := extract_assignments_flatMap m.drones vr
    m.target_points.length hlen hsol
  unfold vrp_solve
  rw [if_neg (fun hc => hc.elim htar hdr)]
  by_cases h1 : m.target_points.length < m.drones.length
  · rw [if_pos h1]
    by_cases h2 : ((extract_assignments m.drones vr).filter
        (fun a => !a.2.isEmpty)).length < m.drones.length ∧
        0 < m.target_points.length
    · rw [if_pos h2]
      have hnodup : ((extract_assignments m.drones vr).flatMap
          (fun a => a.2)).Nodup :=
        hflat.nodup_iff.mpr (List.nodup_range _)
      have hded : ((extract_assignments m.drones vr).flatMap
          (fun a => a.2)).dedup =
          (extract_assignments m.drones vr).flatMap (fun a => a.2) :=
        List.dedup_eq_self.mpr hnodup
      rw [hded]
      have hperm : ((((extract_assignments m.drones vr).flatMap
          (fun a => a.2))).mergeSort (fun a b => decide (a ≤ b))).Perm
          (List.range m.target_points.length) :=
        (List.mergeSort_perm _ _).trans hflat
      have hp : (((extract_assignments m.drones vr).flatMap
          (fun a => a.2)).mergeSort
            (fun a b => decide (a ≤ b))).Pairwise
            (fun a b => decide (a ≤ b) = true) :=
        List.sorted_mergeSort
          (fun a b c hab hbc => by
            simp only [decide_eq_true_eq] at hab hbc ⊢
            omega)
          (fun a b => by
            simp only [Bool.or_eq_true, decide_eq_true_eq]
            omega)
          ((extract_assignments m.drones vr).flatMap (fun a => a.2))
      have hsorted1 : (((extract_assignments m.drones vr).flatMap
          (fun a => a.2)).mergeSort
            (fun a b => decide (a ≤ b))).Pairwise (· ≤ ·) :=
        hp.imp (fun h => by simpa using h)
      have hall : (((extract_assignments m.drones vr).flatMap
          (fun a => a.2)).mergeSort (fun a b => decide (a ≤ b))) =
          List.range m.target_points.length :=
        List.eq_of_perm_of_sorted hperm hsorted1
          (List.sorted_le_range _)
      rw [hall, List.length_range]
      constructor
      · exact redistribute_go_keys _ _ _ m.drones 0 0
      · rw [redistribute_go_flatMap]
        rw [List.drop_zero]
        have hns : numSum
            (m.target_points.length / m.drones.length)
            (m.target_points.length % m.drones.length)
            0 m.drones.length = m.target_points.length := by
          rw [numSum_formula]
          have hmlt : m.target_points.length % m.drones.length <
              m.drones.length := Nat.mod_lt _ hk
          rw [Nat.zero_add, Nat.min_eq_right (le_of_lt hmlt),
            Nat.zero_min, Nat.sub_zero]
          exact Nat.div_add_mod m.target_points.length m.drones.length
        rw [hns]
        have htake : (List.range m.target_points.length).take
            m.target_points.length = List.range m.target_points.length := by
          have ht := List.take_length (List.range m.target_points.length)
          rwa [List.length_range] at ht
        rw [htake]
    · rw [if_neg h2]
      exact ⟨hkeys, hflat⟩
  · rw [if_neg h1]
    exact ⟨hkeys, hflat⟩

/-- A single-aircraft fleet member for the VRP scenarios. -/
def droneC8 : Drone :=
  { name := "vrp-1", max_speed := 15, max_altitude := 120, min_altitude := 10,
    battery_capacity := 100, power_consumption := 50 }

def wpDepotC8 : Waypoint :=
  { latitude := 0, longitude := 0, altitude := 0, waypoint_type := "depot" }

def wpTargetC8a : Waypoint := { latitude := 0, longitude := 0, altitude := 50 }

def wpTargetC8b : Waypoint := { latitude := 1, longitude := 1, altitude := 50 }

/-- A mission with one aircraft and no target points. -/
def missionC8empty : Mission :=
  { name := "m8", drones := [droneC8], target_points := [],
    depot := some wpDepotC8 }

/-- A mission with one aircraft and two target points. -/
def missionC8 : Mission :=
  { name := "m8", drones := [droneC8],
    target_points := [wpTargetC8a, wpTargetC8b], depot := some wpDepotC8 }

/-- C8 counterexample: for a mission with a non-empty fleet but no targets,
both the primary solve and the greedy fallback return the empty mapping, so
the fleet aircraft does not appear as a key — the unconditional claim that
every aircraft always appears in the result fails. -/
theorem C8_counterexample :
    missionC8empty.drones.map Drone.name = ["vrp-1"] ∧
    vrp_solve missionC8empty [] = [] ∧
    greedy_fallback_assignment missionC8empty = [] := by
  refine ⟨rfl, ?_, ?_⟩
  · unfold vrp_solve
    rw [if_pos (Or.inl
      (show missionC8empty.target_points = [] from rfl))]
  · unfold greedy_fallback_assignment
    rw [if_pos (Or.inl
      (show missionC8empty.target_points = [] from rfl))]

/-- C8 (corrected): provided the mission has a depot, at least one target
point, a non-empty fleet whose names are pairwise distinct (so the Python
dict of assignments is faithfully modelled by an association list), the
vehicle-route list matches the fleet in length, and the external OR-Tools
solution visits each matrix node 1..n exactly once across the vehicles, the
assignment produced by VRPSolver.solve — and likewise the greedy round-robin
fallback — is a partition of the target indices: its keys are exactly the
fleet names in fleet order, and the concatenation of the per-aircraft index
lists is a permutation of range n, so every index 0..n−1 is assigned to
exactly one aircraft. The original unconditional claim is false: with zero
targets both paths return the empty mapping (see the counterexample). -/
theorem C8_assignment_partition (m : Mission) (vehicleRoutes : List (List ℕ))
    (depot : Waypoint) (hdep : m.depot = some depot)
    (htar : m.target_points ≠ []) (hdr : m.drones ≠ [])
    (hnames : (m.drones.map Drone.name).Nodup)
    (hlen : vehicleRoutes.length = m.drones.length)
    (hsol : (vehicleRoutes.flatMap id).Perm
      ((List.range m.target_points.length).map (fun x => x + 1))) :
    ((vrp_solve m vehicleRoutes).map Prod.fst = m.drones.map Drone.name ∧
      ((vrp_solve m vehicleRoutes).flatMap (fun a => a.2)).Perm
        (List.range m.target_points.length)) ∧
    ((greedy_fallback_assignment m).map Prod.fst = m.drones.map Drone.name ∧
      ((greedy_fallback_assignment m).flatMap (fun a => a.2)).Perm
        (List.range m.target_points.length)) :=
  ⟨vrp_solve_partition m vehicleRoutes htar hdr hlen hsol,
   greedy_fallback_partition m depot hdep htar hdr⟩

/-- C8 witness: the partition theorem applied to the two-target,
single-aircraft mission with the OR-Tools vehicle route [1, 2]. -/
theorem C8_witness :
    ((vrp_solve missionC8 [[1, 2]]).map Prod.fst =
        missionC8.drones.map Drone.name ∧
      ((vrp_solve missionC8 [[1, 2]]).flatMap (fun a => a.2)).Perm
        (List.range missionC8.target_points.length)) ∧
    ((greedy_fallback_assignment missionC8).map Prod.fst =
        missionC8.drones.map Drone.name ∧
      ((greedy_fallback_assignment missionC8).flatMap (fun a => a.2)).Perm
        (List.range missionC8.target_points.length)) := by
  apply C8_assignment_partition missionC8 [[1, 2]] wpDepotC8
  · rfl
  · exact List.cons_ne_nil _ _
  · exact List.cons_ne_nil _ _
  · decide
  · rfl
  · decide

/-- Dictionary lookup on an association list keyed by node id. -/
def aget {α : Type} (l : List (String × α)) (k : String) : Option α :=
  match l.find? (fun kv => kv.1 == k) with
  | some kv => some kv.2
  | none => none

/-- Dictionary update: replace the binding in place, or append a new one,
as a Python dict assignment. -/
def aset {α : Type} (l : List (String × α)) (k : String) (v : α) :
    List (String × α) :=
  match l with
  | [] => [(k, v)]
  | kv :: rest => if kv.1 == k then (k, v) :: rest else kv :: aset rest k v

/-- A* search state, from the local variables of AStar.find_path: the heap
as the list of its (f, node) entries, the four per-node dictionaries and
the closed set. -/
structure AStarState where
  open_set : List (WithTop ℝ × String)
  came_from : List (String × Option String)
  g_score : List (String × WithTop ℝ)
  f_score : List (String × WithTop ℝ)
  node_speed : List (String × ℝ)
  closed_set : List String

/-- Index of the minimal (f, node) entry of the heap; ties on f are broken
by the node string, exactly as Python orders the tuples heapq compares. -/
def minIdxGo : List (WithTop ℝ × String) → ℕ → ℕ → (WithTop ℝ × String) → ℕ
  | [], _, besti, _ => besti
  | y :: ys, i, besti, best =>
    if y.1 < best.1 ∨ (y.1 = best.1 ∧ y.2 < best.2) then
      minIdxGo ys (i + 1) i y
    else minIdxGo ys (i + 1) besti best

/-- heapq.heappop on the heap contents: remove and return the minimal
(f, node) entry. -/
def popMin (l : List (WithTop ℝ × String)) :
    Option ((WithTop ℝ × String) × List (WithTop ℝ × String)) :=
  match l with
  | [] => none
  | x :: xs =>
    match (x :: xs)[minIdxGo xs 1 0 x]? with
    | some m => some (m, (x :: xs).eraseIdx (minIdxGo xs 1 0 x))
    | none => none

/-- The A* heuristic, from AStar.heuristic: a pseudo-Euclidean 3D distance
whose east-west term scales the longitude difference by 111320 times the
absolute latitude value itself — the source multiplies by abs(pos1[1]) and
its own comment reads "should use cos(lat)". x ** 0.5 on the non-negative
sum is the square root. -/
def astar_heuristic (g : NavigationGraph) (node1 node2 : String) : ℝ :=
  Real.sqrt
    ((((g.get_node_position node1).2.1 - (g.get_node_position node2).2.1) *
        111320) ^ 2 +
      (((g.get_node_position node1).1 - (g.get_node_position node2).1) *
        111320 * |(g.get_node_position node1).2.1|) ^ 2 +
      ((g.get_node_position node1).2.2 - (g.get_node_position node2).2.2) ^ 2)

/-- Tentative g-score of a neighbour, from the loop body of AStar.find_path:
g_score[current] plus the edge weight queried at the speed recorded for
current (dict.get default 0). The popped node always carries a g_score, so
the none default of the lookup renders an unreachable KeyError totally. -/
def astar_tentative (g : NavigationGraph) (current neighbor : String)
    (st : AStarState) : WithTop ℝ :=
  (match aget st.g_score current with | some v => v | none => 0) +
    g.get_edge_weight current neighbor
      (match aget st.node_speed current with | some s => s | none => 0)

/-- Estimated speed stored for the neighbour, from the acceleration model
in AStar.find_path; 0 when no cost model is attached. -/
def astar_estimated_speed (g : NavigationGraph) (current neighbor : String)
    (st : AStarState) : ℝ :=
  match g.cost_model with
  | some cm =>
    if (if cm.drone.max_speed > 0 then
          euclidean_distance_3d (g.get_node_position current)
            (g.get_node_position neighbor) / cm.drone.max_speed
        else 0) > 0 then
      min cm.drone.max_speed
        ((match aget st.node_speed current with | some s => s | none => 0) +
          min (cm.drone.max_speed / 5 *
            (if cm.drone.max_speed > 0 then
              euclidean_distance_3d (g.get_node_position current)
                (g.get_node_position neighbor) / cm.drone.max_speed
            else 0))
            (cm.drone.max_speed -
              (match aget st.node_speed current with
                | some s => s | none => 0)))
    else (match aget st.node_speed current with | some s => s | none => 0)
  | none => 0

/-- Processing of one neighbour of the popped node, from the inner for loop
of AStar.find_path: skip closed neighbours; with a cost model attached skip
edges that its feasibility check rejects; then relax and push when the
neighbour is new or strictly improved. -/
def astar_process_neighbor (g : NavigationGraph)
    (goal current neighbor : String) (st : AStarState) : AStarState :=
  if neighbor ∈ st.closed_set then st
  else if (match g.cost_model with
      | some cm => (cm.is_valid_edge
          (g.get_node_position current).2.1 (g.get_node_position current).1
          (g.get_node_position current).2.2
          (g.get_node_position neighbor).2.1 (g.get_node_position neighbor).1
          (g.get_node_position neighbor).2.2 false false).1
      | none => true) = false then st
  else if (match aget st.g_score neighbor with
      | none => True
      | some gn => astar_tentative g current neighbor st < gn) then
    { open_set := st.open_set ++
        [(astar_tentative g current neighbor st +
            ↑(astar_heuristic g neighbor goal), neighbor)],
      came_from := aset st.came_from neighbor (some current),
      g_score := aset st.g_score neighbor
        (astar_tentative g current neighbor st),
      f_score := aset st.f_score neighbor
        (astar_tentative g current neighbor st +
          ↑(astar_heuristic g neighbor goal)),
      node_speed := aset st.node_speed neighbor
        (astar_estimated_speed g current neighbor st),
      closed_set := st.closed_set }
  else st

/-- Path reconstruction, from the goal branch of AStar.find_path (the path
is built goal-first, then reversed by the caller); the fuel bounds the
parent-chain walk and exceeds any terminating run's needs. -/
def reconstruct_go (came_from : List (String × Option String)) :
    ℕ → String → List String
  | 0, node => [node]
  | fuel + 1, node =>
    match aget came_from node with
    | some (some parent) => node :: reconstruct_go came_from fuel parent
    | _ => [node]

/-- The main loop of AStar.find_path, fuelled: pop the minimal heap entry,
skip entries whose node is already closed, stop with the reconstructed path
at the goal, otherwise close the node and relax all its neighbours. -/
def astar_loop (g : NavigationGraph) (goal : String) :
    ℕ → AStarState → Option (List String)
  | 0, _ => none
  | fuel + 1, st =>
    match popMin st.open_set with
    | none => none
    | some (fc, rest) =>
      if fc.2 ∈ st.closed_set then
        astar_loop g goal fuel { st with open_set := rest }
      else if fc.2 = goal then
        some (reconstruct_go st.came_from (fuel + 1) fc.2).reverse
      else
        astar_loop g goal fuel
          ((g.get_neighbors fc.2).foldl
            (fun s n => astar_process_neighbor g goal fc.2 n s)
            { st with
              open_set := rest
              closed_set := fc.2 :: st.closed_set })

namespace AStar

/-- AStar.find_path, fuelled: None when either endpoint is missing,
otherwise the fuelled main loop from the initial single-entry state. -/
def find_path (g : NavigationGraph) (start goal : String) (fuel : ℕ) :
    Option (List String) :=
  if g.has_node start = false ∨ g.has_node goal = false then none
  else
    astar_loop g goal fuel
      { open_set := [(((0 : ℝ) : WithTop ℝ), start)],
        came_from := [(start, none)],
        g_score := [(start, ((0 : ℝ) : WithTop ℝ))],
        f_score := [(start, ↑(astar_heuristic g start goal))],
        node_speed := [(start, 0)],
        closed_set := [] }

end AStar

/-- Summed edge weight of a node path at current speed 0, the quantity the
optimality statement of the specification is about. -/
def path_weight (g : NavigationGraph) (path : List String) : WithTop ℝ :=
  (path.zip path.tail).foldl
    (fun acc p => acc + g.get_edge_weight p.1 p.2 0) 0

/-- Three waypoints on the 50° latitude line: start S, midpoint M, goal G,
with cheap edges S—M and M—G and an expensive direct edge S—G; no cost
model, so all queried edge weights are the cached build-time weights. -/
def gC3 : NavigationGraph :=
  { nodes := [("S", { latitude := 50, longitude := 0, altitude := 0 }),
              ("M", { latitude := 50, longitude := 1, altitude := 0 }),
              ("G", { latitude := 50, longitude := 2, altitude := 0 })],
    edges := [("S", "M", 10), ("S", "G", 100), ("M", "G", 10)] }

/-- Tentative g-score of M as the run computes it. -/
def tMC3 : WithTop ℝ :=
  ((0 : ℝ) : WithTop ℝ) + gC3.get_edge_weight "S" "M" (0 : ℝ)

/-- Tentative g-score of G as the run computes it. -/
def tGC3 : WithTop ℝ :=
  ((0 : ℝ) : WithTop ℝ) + gC3.get_edge_weight "S" "G" (0 : ℝ)

/-- f-score pushed for M. -/
def fMC3 : WithTop ℝ := tMC3 + ↑(astar_heuristic gC3 "M" "G")

/-- f-score pushed for G. -/
def fGC3 : WithTop ℝ := tGC3 + ↑(astar_heuristic gC3 "G" "G")

theorem astar_heuristic_MG : astar_heuristic gC3 "M" "G" = 5566000 := by
  have h1 : astar_heuristic gC3 "M" "G" =
      Real.sqrt ((((50 : ℝ) - 50) * 111320) ^ 2 +
        (((1 : ℝ) - 2) * 111320 * |(50 : ℝ)|) ^ 2 + ((0 : ℝ) - 0) ^ 2) := rfl
  rw [h1]
  rw [show (((50 : ℝ) - 50) * 111320) ^ 2 +
      (((1 : ℝ) - 2) * 111320 * |(50 : ℝ)|) ^ 2 + ((0 : ℝ) - 0) ^ 2 =
      (5566000 : ℝ) ^ 2 from by
    rw [abs_of_nonneg (by norm_num : (0 : ℝ) ≤ (50 : ℝ))]
    norm_num]
  exact Real.sqrt_sq (by norm_num)

theorem astar_heuristic_GG : astar_heuristic gC3 "G" "G" = 0 := by
  have h1 : astar_heuristic gC3 "G" "G" =
      Real.sqrt ((((50 : ℝ) - 50) * 111320) ^ 2 +
        (((2 : ℝ) - 2) * 111320 * |(50 : ℝ)|) ^ 2 + ((0 : ℝ) - 0) ^ 2) := rfl
  rw [h1]
  rw [show (((50 : ℝ) - 50) * 111320) ^ 2 +
      (((2 : ℝ) - 2) * 111320 * |(50 : ℝ)|) ^ 2 + ((0 : ℝ) - 0) ^ 2 =
      (0 : ℝ) from by norm_num]
  exact Real.sqrt_zero

theorem fMC3_val : fMC3 = ((5566010 : ℝ) : WithTop ℝ) := by
  unfold fMC3 tMC3
  rw [show gC3.get_edge_weight "S" "M" (0 : ℝ) = ((10 : ℝ) : WithTop ℝ)
    from rfl]
  rw [astar_heuristic_MG]
  rw [← WithTop.coe_add, ← WithTop.coe_add, WithTop.coe_eq_coe]
  norm_num

theorem fGC3_val : fGC3 = ((100 : ℝ) : WithTop ℝ) := by
  unfold fGC3 tGC3
  rw [show gC3.get_edge_weight "S" "G" (0 : ℝ) = ((100 : ℝ) : WithTop ℝ)
    from rfl]
  rw [astar_heuristic_GG]
  rw [← WithTop.coe_add, ← WithTop.coe_add, WithTop.coe_eq_coe]
  norm_num

/-- State after S is popped and closed, before its neighbours are relaxed. -/
def stAC3 : AStarState :=
  { open_set := [],
    came_from := [("S", none)],
    g_score := [("S", ((0 : ℝ) : WithTop ℝ))],
    f_score := [("S", ↑(astar_heuristic gC3 "S" "G"))],
    node_speed := [("S", (0 : ℝ))],
    closed_set := ["S"] }

/-- State after the neighbour M of S is relaxed. -/
def stBC3 : AStarState :=
  { open_set := [(fMC3, "M")],
    came_from := [("S", none), ("M", some "S")],
    g_score := [("S", ((0 : ℝ) : WithTop ℝ)), ("M", tMC3)],
    f_score := [("S", ↑(astar_heuristic gC3 "S" "G")), ("M", fMC3)],
    node_speed := [("S", (0 : ℝ)), ("M", (0 : ℝ))],
    closed_set := ["S"] }

/-- State after both neighbours of S are relaxed. -/
def st2C3 : AStarState :=
  { open_set := [(fMC3, "M"), (fGC3, "G")],
    came_from := [("S", none), ("M", some "S"), ("G", some "S")],
    g_score := [("S", ((0 : ℝ) : WithTop ℝ)), ("M", tMC3), ("G", tGC3)],
    f_score := [("S", ↑(astar_heuristic gC3 "S" "G")), ("M", fMC3),
      ("G", fGC3)],
    node_speed := [("S", (0 : ℝ)), ("M", (0 : ℝ)), ("G", (0 : ℝ))],
    closed_set := ["S"] }

theorem astar_C3_processM :
    astar_process_neighbor gC3 "G" "S" "M" stAC3 = stBC3 := if_pos trivial

theorem astar_C3_processG :
    astar_process_neighbor gC3 "G" "S" "G" stBC3 = st2C3 := if_pos trivial

theorem astar_C3_step1 : AStar.find_path gC3 "S" "G" 10 =
    astar_loop gC3 "G" 9 ((gC3.get_neighbors "S").foldl
      (fun s n => astar_process_neighbor gC3 "G" "S" n s) stAC3) := rfl

theorem astar_C3_step2 : (gC3.get_neighbors "S").foldl
    (fun s n => astar_process_neighbor gC3 "G" "S" n s) stAC3 = st2C3 := by
  rw [show (gC3.get_neighbors "S") = ["M", "G"] from rfl,
    List.foldl_cons, List.foldl_cons, List.foldl_nil]
  show astar_process_neighbor gC3 "G" "S" "G"
    (astar_process_neighbor gC3 "G" "S" "M" stAC3) = st2C3
  rw [astar_C3_processM, astar_C3_processG]

theorem astar_C3_minIdx : minIdxGo [(fGC3, "G")] 1 0 (fMC3, "M") = 1 := by
  have hlt : fGC3 < fMC3 := by
    rw [fGC3_val, fMC3_val]
    exact WithTop.coe_lt_coe.mpr (by norm_num)
  show (if fGC3 < fMC3 ∨ (fGC3 = fMC3 ∧ "G" < "M") then
      minIdxGo [] 2 1 (fGC3, "G")
    else minIdxGo [] 2 0 (fMC3, "M")) = 1
  rw [if_pos (Or.inl hlt)]
  rfl

theorem astar_C3_pop : popMin [(fMC3, "M"), (fGC3, "G")] =
    some ((fGC3, "G"), [(fMC3, "M")]) := by
  show (match ([(fMC3, "M"), (fGC3, "G")] :
      List (WithTop ℝ × String))[minIdxGo [(fGC3, "G")] 1 0 (fMC3, "M")]? with
    | some m => some (m, ([(fMC3, "M"), (fGC3, "G")] :
        List (WithTop ℝ × String)).eraseIdx
          (minIdxGo [(fGC3, "G")] 1 0 (fMC3, "M")))
    | none => none) = some ((fGC3, "G"), [(fMC3, "M")])
  rw [astar_C3_minIdx]
  rfl

theorem astar_C3_step3 : astar_loop gC3 "G" 9 st2C3 = some ["S", "G"] := by
  have estep : astar_loop gC3 "G" 9 st2C3 =
      (match popMin [(fMC3, "M"), (fGC3, "G")] with
        | none => none
        | some (fc, rest) =>
          if fc.2 ∈ (["S"] : List String) then
            astar_loop gC3 "G" 8 { st2C3 with open_set := rest }
          else if fc.2 = "G" then
            some (reconstruct_go st2C3.came_from 9 fc.2).reverse
          else
            astar_loop gC3 "G" 8
              ((gC3.get_neighbors fc.2).foldl
                (fun s n => astar_process_neighbor gC3 "G" fc.2 n s)
                { st2C3 with
                  open_set := rest
                  closed_set := fc.2 :: (["S"] : List String) })) := rfl
  rw [estep, astar_C3_pop]
  rfl

/-- C3: the optimality and heuristic claims are false of the code. On the
three-node graph gC3 at latitude 50°, find_path from S to G returns the
direct path [S, G] of summed edge weight 100 (at current speed 0), although
the alternative path [S, M, G] over the same graph has summed edge weight
20. The cause is the heuristic: it scales the east-west term by the
absolute latitude value instead of its cosine (the source comment itself
says "should use cos(lat)"), so h(M, G) evaluates to 5566000 m although the
remaining cost from M is the single edge M—G of weight 10 — the heuristic
is neither the great-circle distance nor admissible, and A* loses its
optimality guarantee. -/
theorem C3_astar_suboptimal :
    AStar.find_path gC3 "S" "G" 10 = some ["S", "G"] ∧
    path_weight gC3 ["S", "G"] = ((100 : ℝ) : WithTop ℝ) ∧
    path_weight gC3 ["S", "M", "G"] = ((20 : ℝ) : WithTop ℝ) ∧
    astar_heuristic gC3 "M" "G" = 5566000 ∧
    gC3.get_edge_weight "M" "G" 0 = ((10 : ℝ) : WithTop ℝ) := by
  refine ⟨?_, ?_, ?_, astar_heuristic_MG, rfl⟩
  · rw [astar_C3_step1, astar_C3_step2, astar_C3_step3]
  · show (0 : WithTop ℝ) + gC3.get_edge_weight "S" "G" 0 =
      ((100 : ℝ) : WithTop ℝ)
    rw [show gC3.get_edge_weight "S" "G" 0 = ((100 : ℝ) : WithTop ℝ)
      from rfl]
    exact zero_add _
  · show ((0 : WithTop ℝ) + gC3.get_edge_weight "S" "M" 0) +
      gC3.get_edge_weight "M" "G" 0 = ((20 : ℝ) : WithTop ℝ)
    rw [show gC3.get_edge_weight "S" "M" 0 = ((10 : ℝ) : WithTop ℝ)
      from rfl,
      show gC3.get_edge_weight "M" "G" 0 = ((10 : ℝ) : WithTop ℝ)
      from rfl]
    rw [zero_add, ← WithTop.coe_add, WithTop.coe_eq_coe]
    norm_num
